import Mathlib

/-!
Verification of the repo-autodeployer deployment pipeline core.

The definitions below are a shallow embedding of the Python sources
(`app/worker.py`, `app/queue.py`, `app/templates.py`, `app/constants.py`,
`app/main.py`).  Strings are modelled as `List Char`; file systems as
explicit lists of files; the thread pool and job registry as an explicit
transition system.
-/

set_option maxRecDepth 20000

namespace RepoAutodeployer

/-! ## Basic string helpers (Python `str.lower`, substring containment) -/

/-- Python `str.lower()` restricted to the ASCII case mapping
(all tokens checked by the policy are ASCII). -/
def lowerChars (s : List Char) : List Char := s.map Char.toLower

/-- Bool test: `needle` occurs as a contiguous substring of `hay`
(Python `needle in hay`). -/
def containsSubstr (needle hay : List Char) : Bool :=
  match hay with
  | [] => needle.isEmpty
  | _ :: rest => needle.isPrefixOf hay || containsSubstr needle rest

/-- Value of `DEFAULT_AWS_INSTANCE` from `app/constants.py`. -/
def DEFAULT_AWS_INSTANCE : List Char := "t2.small".data

/-! ## InfraPolicy: `is_llm_tf_acceptable` (worker.py lines 473-492) -/

/-- Embedding of `is_llm_tf_acceptable(code)` from `app/worker.py`:
lowercases the candidate, rejects `aws_key_pair`, requires `egress`,
`tls_private_key`, the default instance type and `make up` on the
lowercased text, and requires the literal upload path
`/home/ubuntu/app.tar.gz` on the raw (non-lowercased) text. -/
def is_llm_tf_acceptable (code : List Char) : Bool :=
  let code_l := lowerChars code
  if containsSubstr ("aws_key_pair".data) code_l then false
  else if !containsSubstr ("egress".data) code_l then false
  else if !containsSubstr ("tls_private_key".data) code_l then false
  else if !containsSubstr DEFAULT_AWS_INSTANCE code_l then false
  else if !containsSubstr ("/home/ubuntu/app.tar.gz".data) code then false
  else if !containsSubstr ("make up".data) code_l then false
  else true

/-- C1: the infra-file acceptance predicate returns `false` whenever the
candidate contains `aws_key_pair` case-insensitively, or lacks an `egress`
token, or lacks a `tls_private_key` token. -/
theorem C1_tf_policy_rejections (code : List Char)
    (h : containsSubstr ("aws_key_pair".data) (lowerChars code) = true
       ∨ containsSubstr ("egress".data) (lowerChars code) = false
       ∨ containsSubstr ("tls_private_key".data) (lowerChars code) = false) :
    is_llm_tf_acceptable code = false := by
  unfold is_llm_tf_acceptable
  rcases h with h | h | h <;> simp [h]

/-- Witness for C1 at three concrete candidates, one per rejection reason. -/
theorem C1_tf_policy_rejections_witness :
    is_llm_tf_acceptable ("resource AWS_KEY_PAIR egress".data) = false
    ∧ is_llm_tf_acceptable ("tls_private_key only".data) = false
    ∧ is_llm_tf_acceptable ("egress only".data) = false := by
  refine ⟨?_, ?_, ?_⟩
  · exact C1_tf_policy_rejections _ (Or.inl (by decide))
  · exact C1_tf_policy_rejections _ (Or.inr (Or.inl (by decide)))
  · exact C1_tf_policy_rejections _ (Or.inr (Or.inr (by decide)))

/-! ## C7: case-insensitivity of `is_llm_tf_acceptable` -/

/-- Changes the case of every letter (lowercase to uppercase and back). -/
def caseFlip (c : Char) : Char :=
  if c.isLower then c.toUpper else if c.isUpper then c.toLower else c

/-- A candidate accepted by the policy; its all-letters-case-flipped
variant is rejected, because the upload-path check at worker.py line 488
reads the raw candidate rather than the lowercased one. -/
def c7Example : List Char :=
  "egress tls_private_key t2.small make up /home/ubuntu/app.tar.gz".data

/-- C7 counterexample: the acceptance predicate is not invariant under
changing the case of every letter of the candidate. -/
theorem C7_counterexample :
    ¬ (is_llm_tf_acceptable c7Example
       = is_llm_tf_acceptable (c7Example.map caseFlip)) := by
  decide

/-- C7 amended: all checks except the upload-path check are
case-insensitive; the result of `is_llm_tf_acceptable` depends only on
the lowercased candidate together with the case-sensitive presence of
the literal `/home/ubuntu/app.tar.gz`. -/
theorem C7_amended_case_dependence (s t : List Char)
    (hl : lowerChars s = lowerChars t)
    (hp : containsSubstr ("/home/ubuntu/app.tar.gz".data) s
        = containsSubstr ("/home/ubuntu/app.tar.gz".data) t) :
    is_llm_tf_acceptable s = is_llm_tf_acceptable t := by
  unfold is_llm_tf_acceptable
  rw [hl, hp]

/-- Witness for C7's amended statement on two concrete candidates that
differ only in letter case outside the upload path. -/
theorem C7_amended_case_dependence_witness :
    is_llm_tf_acceptable ("EGRESS tls_private_key t2.small make up /home/ubuntu/app.tar.gz".data)
    = is_llm_tf_acceptable ("egress TLS_PRIVATE_KEY t2.small MAKE UP /home/ubuntu/app.tar.gz".data) :=
  C7_amended_case_dependence _ _ (by decide) (by decide)


/-! ## Templates (app/templates.py, app/constants.py), exact string values -/

/-- Literal brace characters. -/
def braceL : Char := Char.ofNat 123

/-- See `braceL`. -/
def braceR : Char := Char.ofNat 125

/-- Exact value of `AMI_DATA_SNIPPET` from app/constants.py (after its strip). -/
def AMI_DATA_SNIPPET : List Char :=
  ("data \"aws_ami\" \"ubuntu\" \x7b\n  most_recent = true\n  owners      = [\"099720109477\"] # Canonical\n  filter \x7b\n    name   = \"name\"\n    values = [\"ubuntu/images/hvm-ssd-gp3/ubuntu-noble-24.04-amd64-server-*\"]\n  \x7d\n\x7d").data

/-- Exact value of `REMOTE_EXEC_SNIPPET` from app/templates.py (after its lstrip). -/
def REMOTE_EXEC_SNIPPET : List Char :=
  ("provisioner \"remote-exec\" \x7b\n  inline = [\n    \"sudo -n sed -i 's|http://[^ ]*ec2.archive.ubuntu.com/ubuntu|http://archive.ubuntu.com/ubuntu|g' /etc/apt/sources.list || true\",\n    \"sudo -n env DEBIAN_FRONTEND=noninteractive apt-get update -o Acquire::ForceIPv4=true -o Acquire::Retries=3 -o Acquire::http::Timeout=30 -y\",\n    \"sudo -n env DEBIAN_FRONTEND=noninteractive apt-get install -y make curl\",\n    \"sudo -n env DEBIAN_FRONTEND=noninteractive curl -fsSL https://get.docker.com | sudo sh\",\n    \"sudo -n groupadd -f docker\",\n    \"sudo -n usermod -aG docker ubuntu\",\n    \"sudo -n systemctl enable --now docker || sudo -n service docker start || true\",\n    \"sudo -n mkdir -p /opt\",\n    \"sudo -n tar -xzf /home/ubuntu/app.tar.gz -C /opt/\",\n    \"cd /opt/app && sudo -n -E make up\",\n  ]\n\x7d\n").data

/-- Exact value of `COMPOSE_TEMPLATE` from app/templates.py (after its lstrip). -/
def COMPOSE_TEMPLATE : List Char :=
  ("version: '3.9'\nservices:\n  app:\n    build:\n      context: ./repo\n      dockerfile: ../Dockerfile\n    container_name: app\n    restart: unless-stopped\n    ports:\n      - \"8080:\x7binternal_port\x7d\"\n    environment:\n      - PORT=\x7binternal_port\x7d\n    # Optionally override command via environment or current repo conventions\n").data

/-- Doubled left braces in a Python format template (emit one literal brace). -/
def dLB : List Char := [braceL, braceL]

/-- Doubled right braces. -/
def dRB : List Char := [braceR, braceR]

/-- A format placeholder: a left brace, the field name, a right brace. -/
def ph (name : List Char) : List Char := braceL :: (name ++ [braceR])

/-! Brace-free pieces of `TERRAFORM_FALLBACK_TEMPLATE`, in template order
(the template is their concatenation interleaved with `dLB`, `dRB` and `ph`
placeholders, exactly as in app/templates.py lines 72-214). -/

/-- Piece `tftP1` of the Terraform fallback template. -/
def tftP1 : List Char :=
  ("terraform ").data

/-- Piece `tftP2` of the Terraform fallback template. -/
def tftP2 : List Char :=
  ("\n  required_providers ").data

/-- Piece `tftP3` of the Terraform fallback template. -/
def tftP3 : List Char :=
  ("\n    aws = ").data

/-- Piece `tftP4` of the Terraform fallback template. -/
def tftP4 : List Char :=
  ("\n      source  = \"hashicorp/aws\"\n      version = \"~> 5.0\"\n    ").data

/-- Piece `tftP5` of the Terraform fallback template. -/
def tftP5 : List Char :=
  ("\n    tls = ").data

/-- Piece `tftP6` of the Terraform fallback template. -/
def tftP6 : List Char :=
  ("\n      source  = \"hashicorp/tls\"\n      version = \"~> 4.0\"\n    ").data

/-- Piece `tftP7` of the Terraform fallback template. -/
def tftP7 : List Char :=
  ("\n    local = ").data

/-- Piece `tftP8` of the Terraform fallback template. -/
def tftP8 : List Char :=
  ("\n      source  = \"hashicorp/local\"\n      version = \"~> 2.0\"\n    ").data

/-- Piece `tftP9` of the Terraform fallback template. -/
def tftP9 : List Char :=
  ("\n  ").data

/-- Piece `tftP10` of the Terraform fallback template. -/
def tftP10 : List Char :=
  ("\n").data

/-- Piece `tftP11` of the Terraform fallback template. -/
def tftP11 : List Char :=
  ("\n\nprovider \"aws\" ").data

/-- Piece `tftP12` of the Terraform fallback template. -/
def tftP12 : List Char :=
  ("\n  region = var.region\n").data

/-- Piece `tftP13` of the Terraform fallback template. -/
def tftP13 : List Char :=
  ("\n\nvariable \"region\" ").data

/-- Piece `tftP14` of the Terraform fallback template. -/
def tftP14 : List Char :=
  (" default = \"ca-central-1\" ").data

/-- Piece `tftP15` of the Terraform fallback template. -/
def tftP15 : List Char :=
  ("\nvariable \"az_suffix\" ").data

/-- Piece `tftP16` of the Terraform fallback template. -/
def tftP16 : List Char :=
  (" default = \"a\" ").data

/-- Piece `tftP17` of the Terraform fallback template. -/
def tftP17 : List Char :=
  ("\n\nresource \"tls_private_key\" \"ssh\" ").data

/-- Piece `tftP18` of the Terraform fallback template. -/
def tftP18 : List Char :=
  ("\n  algorithm = \"RSA\"\n  rsa_bits  = 4096\n").data

/-- Piece `tftP19` of the Terraform fallback template. -/
def tftP19 : List Char :=
  ("\n\nresource \"local_file\" \"private_key_pem\" ").data

/-- Piece `tftP20` of the Terraform fallback template. -/
def tftP20 : List Char :=
  ("\n  content              = tls_private_key.ssh.private_key_pem\n  filename             = \"id_rsa\"\n  file_permission      = \"0600\"\n  directory_permission = \"0700\"\n").data

/-- Piece `tftP21` of the Terraform fallback template. -/
def tftP21 : List Char :=
  ("\n\n").data

/-- Piece `tftP22` of the Terraform fallback template. -/
def tftP22 : List Char :=
  ("\n\n# Networking: VPC with public subnet and Internet access\nresource \"aws_vpc\" \"main\" ").data

/-- Piece `tftP23` of the Terraform fallback template. -/
def tftP23 : List Char :=
  ("\n  cidr_block           = \"10.0.0.0/16\"\n  enable_dns_support   = true\n  enable_dns_hostnames = true\n  tags = ").data

/-- Piece `tftP24` of the Terraform fallback template. -/
def tftP24 : List Char :=
  (" Name = \"autodeployer-vpc\" ").data

/-- Piece `tftP25` of the Terraform fallback template. -/
def tftP25 : List Char :=
  ("\n\nresource \"aws_internet_gateway\" \"igw\" ").data

/-- Piece `tftP26` of the Terraform fallback template. -/
def tftP26 : List Char :=
  ("\n  vpc_id = aws_vpc.main.id\n  tags = ").data

/-- Piece `tftP27` of the Terraform fallback template. -/
def tftP27 : List Char :=
  (" Name = \"autodeployer-igw\" ").data

/-- Piece `tftP28` of the Terraform fallback template. -/
def tftP28 : List Char :=
  ("\n\nresource \"aws_subnet\" \"public\" ").data

/-- Piece `tftP29` of the Terraform fallback template. -/
def tftP29 : List Char :=
  ("\n  vpc_id                  = aws_vpc.main.id\n  cidr_block              = \"10.0.1.0/24\"\n  availability_zone       = \"$").data

/-- Piece `tftP30` of the Terraform fallback template. -/
def tftP30 : List Char :=
  ("var.region").data

/-- Piece `tftP31` of the Terraform fallback template. -/
def tftP31 : List Char :=
  ("$").data

/-- Piece `tftP32` of the Terraform fallback template. -/
def tftP32 : List Char :=
  ("var.az_suffix").data

/-- Piece `tftP33` of the Terraform fallback template. -/
def tftP33 : List Char :=
  ("\"\n  map_public_ip_on_launch = true\n  tags = ").data

/-- Piece `tftP34` of the Terraform fallback template. -/
def tftP34 : List Char :=
  (" Name = \"autodeployer-public\" ").data

/-- Piece `tftP35` of the Terraform fallback template. -/
def tftP35 : List Char :=
  ("\n\nresource \"aws_route_table\" \"public\" ").data

/-- Piece `tftP36` of the Terraform fallback template. -/
def tftP36 : List Char :=
  ("\n  vpc_id = aws_vpc.main.id\n  # Note: the local route to 10.0.0.0/16 is implicit in AWS and cannot be explicitly created via Terraform.\n  route ").data

/-- Piece `tftP37` of the Terraform fallback template. -/
def tftP37 : List Char :=
  ("\n    cidr_block = \"0.0.0.0/0\"\n    gateway_id = aws_internet_gateway.igw.id\n  ").data

/-- Piece `tftP38` of the Terraform fallback template. -/
def tftP38 : List Char :=
  ("\n  tags = ").data

/-- Piece `tftP39` of the Terraform fallback template. -/
def tftP39 : List Char :=
  (" Name = \"autodeployer-rt\" ").data

/-- Piece `tftP40` of the Terraform fallback template. -/
def tftP40 : List Char :=
  ("\n\nresource \"aws_route_table_association\" \"public\" ").data

/-- Piece `tftP41` of the Terraform fallback template. -/
def tftP41 : List Char :=
  ("\n  subnet_id      = aws_subnet.public.id\n  route_table_id = aws_route_table.public.id\n").data

/-- Piece `tftP42` of the Terraform fallback template. -/
def tftP42 : List Char :=
  ("\n\nresource \"aws_security_group\" \"app\" ").data

/-- Piece `tftP43` of the Terraform fallback template. -/
def tftP43 : List Char :=
  ("\n  name_prefix = \"autodeployer-sg-\"\n  description = \"Allow SSH and 8080\"\n  vpc_id      = aws_vpc.main.id\n\n  ingress ").data

/-- Piece `tftP44` of the Terraform fallback template. -/
def tftP44 : List Char :=
  ("\n    from_port   = 22\n    to_port     = 22\n    protocol    = \"tcp\"\n    cidr_blocks = [\"0.0.0.0/0\"]\n  ").data

/-- Piece `tftP45` of the Terraform fallback template. -/
def tftP45 : List Char :=
  ("\n  ingress ").data

/-- Piece `tftP46` of the Terraform fallback template. -/
def tftP46 : List Char :=
  ("\n    from_port   = 8080\n    to_port     = 8080\n    protocol    = \"tcp\"\n    cidr_blocks = [\"0.0.0.0/0\"]\n  ").data

/-- Piece `tftP47` of the Terraform fallback template. -/
def tftP47 : List Char :=
  ("\n  egress ").data

/-- Piece `tftP48` of the Terraform fallback template. -/
def tftP48 : List Char :=
  ("\n    from_port        = 0\n    to_port          = 0\n    protocol         = \"-1\"\n    cidr_blocks      = [\"0.0.0.0/0\"]\n    ipv6_cidr_blocks = [\"::/0\"]\n  ").data

/-- Piece `tftP49` of the Terraform fallback template. -/
def tftP49 : List Char :=
  ("\n\nresource \"aws_instance\" \"app\" ").data

/-- Piece `tftP50` of the Terraform fallback template. -/
def tftP50 : List Char :=
  ("\n  ami                    = data.aws_ami.ubuntu.id\n  instance_type          = \"").data

/-- Piece `tftP51` of the Terraform fallback template. -/
def tftP51 : List Char :=
  ("\"\n  subnet_id               = aws_subnet.public.id\n  vpc_security_group_ids  = [aws_security_group.app.id]\n  associate_public_ip_address = true\n  user_data = <<-EOT\n              #cloud-config\n              users:\n                - name: ubuntu\n                  groups:\n                    - sudo\n                  sudo: \"ALL=(ALL) NOPASSWD:ALL\"\n                  shell: /bin/bash\n                  ssh_authorized_keys:\n                    - $").data

/-- Piece `tftP52` of the Terraform fallback template. -/
def tftP52 : List Char :=
  ("tls_private_key.ssh.public_key_openssh").data

/-- Piece `tftP53` of the Terraform fallback template. -/
def tftP53 : List Char :=
  ("\n              EOT\n  tags = ").data

/-- Piece `tftP54` of the Terraform fallback template. -/
def tftP54 : List Char :=
  (" Name = \"autodeployer-").data

/-- Piece `tftP55` of the Terraform fallback template. -/
def tftP55 : List Char :=
  ("\" ").data

/-- Piece `tftP56` of the Terraform fallback template. -/
def tftP56 : List Char :=
  ("\n\nresource \"null_resource\" \"provision\" ").data

/-- Piece `tftP57` of the Terraform fallback template. -/
def tftP57 : List Char :=
  ("\n  depends_on = [aws_instance.app]\n\n  connection ").data

/-- Piece `tftP58` of the Terraform fallback template. -/
def tftP58 : List Char :=
  ("\n    type        = \"ssh\"\n    host        = aws_instance.app.public_ip\n    user        = \"ubuntu\"\n    private_key = tls_private_key.ssh.private_key_pem\n  ").data

/-- Piece `tftP59` of the Terraform fallback template. -/
def tftP59 : List Char :=
  ("\n\n  provisioner \"file\" ").data

/-- Piece `tftP60` of the Terraform fallback template. -/
def tftP60 : List Char :=
  ("\n    source      = \"app.tar.gz\"\n    destination = \"/home/ubuntu/app.tar.gz\"\n  ").data

/-- Piece `tftP61` of the Terraform fallback template. -/
def tftP61 : List Char :=
  ("\n\n  ").data

/-- Piece `tftP62` of the Terraform fallback template. -/
def tftP62 : List Char :=
  ("\n\noutput \"public_ip\" ").data

/-- Piece `tftP63` of the Terraform fallback template. -/
def tftP63 : List Char :=
  ("\n  value = aws_instance.app.public_ip\n").data

/-- Exact value of `TERRAFORM_FALLBACK_TEMPLATE` (app/templates.py, after its
lstrip), written as the concatenation of its brace-free pieces and its brace
tokens so that the format-processing lemmas below can walk it segment by
segment.  Note the `ph` placeholders: `ami_data_snippet`, `instance_type`,
`name_suffix` and `remote_exec_snippet`. -/
def TERRAFORM_FALLBACK_TEMPLATE : List Char :=
  tftP1 ++ (dLB ++ (tftP2 ++ (dLB ++ (tftP3 ++ (dLB ++ (tftP4 ++ (dRB ++ (tftP5 ++ (dLB ++ (tftP6 ++ (dRB ++ (tftP7 ++ (dLB ++ (tftP8 ++ (dRB ++ (tftP9 ++ (dRB ++ (tftP10 ++ (dRB ++ (tftP11 ++ (dLB ++ (tftP12 ++ (dRB ++ (tftP13 ++ (dLB ++ (tftP14 ++ (dRB ++ (tftP15 ++ (dLB ++ (tftP16 ++ (dRB ++ (tftP17 ++ (dLB ++ (tftP18 ++ (dRB ++ (tftP19 ++ (dLB ++ (tftP20 ++ (dRB ++ (tftP21 ++ (ph (("ami_data_snippet").data) ++ (tftP22 ++ (dLB ++ (tftP23 ++ (dLB ++ (tftP24 ++ (dRB ++ (tftP10 ++ (dRB ++ (tftP25 ++ (dLB ++ (tftP26 ++ (dLB ++ (tftP27 ++ (dRB ++ (tftP10 ++ (dRB ++ (tftP28 ++ (dLB ++ (tftP29 ++ (dLB ++ (tftP30 ++ (dRB ++ (tftP31 ++ (dLB ++ (tftP32 ++ (dRB ++ (tftP33 ++ (dLB ++ (tftP34 ++ (dRB ++ (tftP10 ++ (dRB ++ (tftP35 ++ (dLB ++ (tftP36 ++ (dLB ++ (tftP37 ++ (dRB ++ (tftP38 ++ (dLB ++ (tftP39 ++ (dRB ++ (tftP10 ++ (dRB ++ (tftP40 ++ (dLB ++ (tftP41 ++ (dRB ++ (tftP42 ++ (dLB ++ (tftP43 ++ (dLB ++ (tftP44 ++ (dRB ++ (tftP45 ++ (dLB ++ (tftP46 ++ (dRB ++ (tftP47 ++ (dLB ++ (tftP48 ++ (dRB ++ (tftP10 ++ (dRB ++ (tftP49 ++ (dLB ++ (tftP50 ++ (ph (("instance_type").data) ++ (tftP51 ++ (dLB ++ (tftP52 ++ (dRB ++ (tftP53 ++ (dLB ++ (tftP54 ++ (ph (("name_suffix").data) ++ (tftP55 ++ (dRB ++ (tftP10 ++ (dRB ++ (tftP56 ++ (dLB ++ (tftP57 ++ (dLB ++ (tftP58 ++ (dRB ++ (tftP59 ++ (dLB ++ (tftP60 ++ (dRB ++ (tftP61 ++ (ph (("remote_exec_snippet").data) ++ (tftP10 ++ (dRB ++ (tftP62 ++ (dLB ++ (tftP63 ++ (dRB ++ (tftP10))))))))))))))))))))))))))))))))))))))))))))))))))))))))))))))))))))))))))))))))))))))))))))))))))))))))))))))))))))))))))))))))))))))))))))


/-! ## Python `str.format` model and segment lemmas -/

/-- Scanner mode of the `str.format` model: outside a replacement field,
just after a single left or right brace, or inside a field holding the
reversed field name read so far. -/
inductive FmtMode where
  | normal : FmtMode
  | sawL : FmtMode
  | sawR : FmtMode
  | field : List Char → FmtMode

/-- Environment lookup for `str.format` keyword arguments. -/
def lookupEnv : List (List Char × List Char) → List Char → Option (List Char)
  | [], _ => none
  | (k, v) :: rest, n => if k = n then some v else lookupEnv rest n

/-- Character-at-a-time model of Python `str.format`: doubled braces emit
a literal brace, a placeholder is replaced by the looked-up value (a
missing keyword raises `KeyError`, modelled as `none`), and a stray or
unclosed brace raises `ValueError`/`IndexError` (also `none`).  The
accumulator holds the output in reverse. -/
def pyFormatGo (env : List (List Char × List Char)) :
    FmtMode → List Char → List Char → Option (List Char)
  | .normal, acc, [] => some acc.reverse
  | .sawL, _, [] => none
  | .sawR, _, [] => none
  | .field _, _, [] => none
  | .normal, acc, c :: rest =>
    if c = braceL then pyFormatGo env .sawL acc rest
    else if c = braceR then pyFormatGo env .sawR acc rest
    else pyFormatGo env .normal (c :: acc) rest
  | .sawL, acc, c :: rest =>
    if c = braceL then pyFormatGo env .normal (braceL :: acc) rest
    else if c = braceR then none
    else pyFormatGo env (.field [c]) acc rest
  | .sawR, acc, c :: rest =>
    if c = braceR then pyFormatGo env .normal (braceR :: acc) rest
    else none
  | .field nameRev, acc, c :: rest =>
    if c = braceR then
      match lookupEnv env nameRev.reverse with
      | some v => pyFormatGo env .normal (v.reverseAux acc) rest
      | none => none
    else if c = braceL then none
    else pyFormatGo env (.field (c :: nameRev)) acc rest

/-- Python `template.format(**env)`. -/
def pyFormat (env : List (List Char × List Char)) (tpl : List Char) : Option (List Char) :=
  pyFormatGo env .normal [] tpl

/-- True when the string holds no brace character (such segments are
copied verbatim by `str.format`). -/
def noBrace : List Char → Bool
  | [] => true
  | c :: cs => !(c == braceL) && !(c == braceR) && noBrace cs

/-- Python `str.format` copies a brace-free segment verbatim. -/
theorem fmt_plain (plain : List Char) :
    noBrace plain = true →
    ∀ env acc rest, pyFormatGo env .normal acc (plain ++ rest)
      = pyFormatGo env .normal (plain.reverseAux acc) rest := by
  induction plain with
  | nil => intro _ env acc rest; rfl
  | cons c cs ih =>
    intro h env acc rest
    simp only [noBrace, Bool.and_eq_true, Bool.not_eq_true', beq_eq_false_iff_ne,
      ne_eq] at h
    obtain ⟨⟨hL, hR⟩, hcs⟩ := h
    simp only [List.cons_append, pyFormatGo, if_neg hL, if_neg hR, List.reverseAux]
    exact ih hcs env (c :: acc) rest

/-- Python `str.format` turns doubled left braces into one literal left brace. -/
theorem fmt_dLB : ∀ env acc rest, pyFormatGo env .normal acc (dLB ++ rest)
    = pyFormatGo env .normal (braceL :: acc) rest := by
  intro env acc rest
  simp [dLB, pyFormatGo]

/-- Python `str.format` turns doubled right braces into one literal right brace. -/
theorem fmt_dRB : ∀ env acc rest, pyFormatGo env .normal acc (dRB ++ rest)
    = pyFormatGo env .normal (braceR :: acc) rest := by
  intro env acc rest
  have h1 : ¬ (braceR = braceL) := by decide
  simp [dRB, pyFormatGo, h1]

/-- Inside a replacement field, `str.format` reads the name up to the
closing brace and substitutes the looked-up value. -/
theorem fmt_field (name : List Char) :
    noBrace name = true →
    ∀ env pre acc rest,
      pyFormatGo env (.field pre) acc (name ++ (braceR :: rest))
      = (match lookupEnv env (pre.reverse ++ name) with
         | some v => pyFormatGo env .normal (v.reverseAux acc) rest
         | none => none) := by
  induction name with
  | nil =>
    intro _ env pre acc rest
    simp [pyFormatGo]
  | cons c cs ih =>
    intro h env pre acc rest
    simp only [noBrace, Bool.and_eq_true, Bool.not_eq_true', beq_eq_false_iff_ne,
      ne_eq] at h
    obtain ⟨⟨hL, hR⟩, hcs⟩ := h
    simp only [List.cons_append, pyFormatGo, if_neg hL, if_neg hR, List.append_eq]
    rw [ih hcs env (c :: pre) acc rest]
    simp only [List.reverse_cons, List.append_assoc, List.singleton_append]

/-- Python `str.format` on a placeholder: look the field name up; substitute on
success, raise `KeyError` (modelled as `none`) when the key is missing. -/
theorem fmt_ph (name : List Char) (h : noBrace name = true) (hne : name ≠ []) :
    ∀ env acc rest,
      pyFormatGo env .normal acc (ph name ++ rest)
      = (match lookupEnv env name with
         | some v => pyFormatGo env .normal (v.reverseAux acc) rest
         | none => none) := by
  obtain ⟨c, cs, rfl⟩ := List.exists_cons_of_ne_nil hne
  have hh : (!(c == braceL) && !(c == braceR) && noBrace cs) = true := h
  simp only [Bool.and_eq_true, Bool.not_eq_true', beq_eq_false_iff_ne, ne_eq] at hh
  obtain ⟨⟨hL, hR⟩, hcs⟩ := hh
  intro env acc rest
  have h1 : pyFormatGo env .normal acc (ph (c :: cs) ++ rest)
      = pyFormatGo env (.field [c]) acc (cs ++ (braceR :: rest)) := by
    simp [ph, pyFormatGo, if_neg hL, if_neg hR, List.append_assoc]
  rw [h1, fmt_field cs hcs env [c] acc rest]
  simp only [List.reverse_cons, List.reverse_nil, List.nil_append,
    List.singleton_append]

/-! ## The Terraform fallback render (worker.py lines 436-452) -/

/-- The keyword arguments passed to `.format` by
`terraform_fallback_main_tf` (worker.py lines 438-442): note that no
`remote_exec_snippet` argument is passed. -/
def terraform_fallback_env (name_suffix : List Char) : List (List Char × List Char) :=
  [(("instance_type").data, DEFAULT_AWS_INSTANCE),
   (("name_suffix").data, name_suffix),
   (("ami_data_snippet").data, AMI_DATA_SNIPPET)]

/-- Processing the `ami_data_snippet` placeholder against the fallback's
actual keyword arguments substitutes `AMI_DATA_SNIPPET`. -/
theorem fmt_ph_ami (ns acc rest : List Char) :
    pyFormatGo (terraform_fallback_env ns) .normal acc
      (ph (("ami_data_snippet").data) ++ rest)
    = pyFormatGo (terraform_fallback_env ns) .normal
        (AMI_DATA_SNIPPET.reverseAux acc) rest := by
  rw [fmt_ph _ (by decide) (by decide)]
  rfl

/-- Processing the `instance_type` placeholder substitutes
`DEFAULT_AWS_INSTANCE`. -/
theorem fmt_ph_instance (ns acc rest : List Char) :
    pyFormatGo (terraform_fallback_env ns) .normal acc
      (ph (("instance_type").data) ++ rest)
    = pyFormatGo (terraform_fallback_env ns) .normal
        (DEFAULT_AWS_INSTANCE.reverseAux acc) rest := by
  rw [fmt_ph _ (by decide) (by decide)]
  rfl

/-- Processing the `name_suffix` placeholder substitutes the job's short
id. -/
theorem fmt_ph_suffix (ns acc rest : List Char) :
    pyFormatGo (terraform_fallback_env ns) .normal acc
      (ph (("name_suffix").data) ++ rest)
    = pyFormatGo (terraform_fallback_env ns) .normal (ns.reverseAux acc) rest := by
  rw [fmt_ph _ (by decide) (by decide)]
  rfl

/-- Processing the `remote_exec_snippet` placeholder fails: the key is
absent from the fallback render's keyword arguments (`KeyError`). -/
theorem fmt_ph_remote (ns acc rest : List Char) :
    pyFormatGo (terraform_fallback_env ns) .normal acc
      (ph (("remote_exec_snippet").data) ++ rest) = none := by
  rw [fmt_ph _ (by decide) (by decide)]
  rfl

/-- A substring of the right part of a concatenation is a substring of
the concatenation. -/
theorem contains_append_right (a n b : List Char) (h : containsSubstr n b = true) :
    containsSubstr n (a ++ b) = true := by
  induction a with
  | nil => simpa using h
  | cons c cs ih =>
    simp only [List.cons_append, containsSubstr, Bool.or_eq_true]
    exact Or.inr ih

/-- A prefix is a substring. -/
theorem contains_via_isPrefixOf (n b : List Char) (h : n.isPrefixOf b = true) :
    containsSubstr n b = true := by
  cases b with
  | nil =>
    cases n with
    | nil => rfl
    | cons c cs => simp [List.isPrefixOf] at h
  | cons c rest =>
    simp only [containsSubstr, Bool.or_eq_true]
    exact Or.inl h

/-- The literal matched by the `re.sub` in `terraform_fallback_main_tf`
(its regex is a single literal group). -/
def dockerSubLit : List Char := ("\"cd /opt/app && sudo -n make up\",").data

/-- The prefix inserted before the matched literal by that `re.sub`
(its replacement is this prefix followed by the backreference). -/
def dockerSubIns : List Char :=
  ("\"sudo -n systemctl enable --now docker\",\n      ").data

/-- Fuelled leftmost non-overlapping replacement of every occurrence of
the literal `lit` by `rep` (Python `str.replace`, and `re.sub` for the
purely literal patterns of the worker). -/
def replaceAllLitAux (lit rep : List Char) : Nat → List Char → List Char → List Char
  | 0, acc, cs => acc.reverse ++ cs
  | _ + 1, acc, [] => acc.reverse
  | fuel + 1, acc, c :: cs =>
    if lit.isPrefixOf (c :: cs) then
      replaceAllLitAux lit rep fuel (rep.reverseAux acc)
        (List.drop lit.length (c :: cs))
    else replaceAllLitAux lit rep fuel (c :: acc) cs

/-- See `replaceAllLitAux`. -/
def replaceAllLit (lit rep : List Char) (cs : List Char) : List Char :=
  replaceAllLitAux lit rep (cs.length + 1) [] cs

/-- Embedding of `terraform_fallback_main_tf(name_suffix)` (worker.py
lines 436-452): render the fallback template with three keyword
arguments, then insert a Docker-enable command before the `make up`
line (the `re.sub` there is a literal group replaced by a prefix plus
the backreference).  A render failure (`KeyError`) propagates as
`none`. -/
def terraform_fallback_main_tf (name_suffix : List Char) : Option (List Char) :=
  (pyFormat (terraform_fallback_env name_suffix) TERRAFORM_FALLBACK_TEMPLATE).map
    (replaceAllLit dockerSubLit (dockerSubIns ++ dockerSubLit))

/-- C2 (code bug): `terraform_fallback_main_tf` never produces a
fallback.  The template contains a `remote_exec_snippet` placeholder,
but the `.format` call supplies only `instance_type`, `name_suffix` and
`ami_data_snippet`, so Python raises `KeyError` (modelled as `none`) for
every name suffix.  The spec's guarantee — that the deterministic
fallback is substituted and itself satisfies `is_llm_tf_acceptable` — is
what the code visibly intends (worker.py line 437's comment, and
`openai_client.py` line 23 supplies `remote_exec_snippet` to the prompt
template) but cannot deliver. -/
theorem C2_terraform_fallback_render_fails :
    (∀ name_suffix, terraform_fallback_main_tf name_suffix = none)
    ∧ containsSubstr (ph (("remote_exec_snippet").data)) TERRAFORM_FALLBACK_TEMPLATE = true
    ∧ (∀ name_suffix,
        lookupEnv (terraform_fallback_env name_suffix)
          (("remote_exec_snippet").data) = none) := by
  refine ⟨?_, ?_, ?_⟩
  · intro ns
    have h : pyFormat (terraform_fallback_env ns) TERRAFORM_FALLBACK_TEMPLATE = none := by
      unfold pyFormat TERRAFORM_FALLBACK_TEMPLATE
      rw [fmt_plain tftP1 (by decide), fmt_dLB, fmt_plain tftP2 (by decide), fmt_dLB, fmt_plain tftP3 (by decide), fmt_dLB]
      rw [fmt_plain tftP4 (by decide), fmt_dRB, fmt_plain tftP5 (by decide), fmt_dLB, fmt_plain tftP6 (by decide), fmt_dRB]
      rw [fmt_plain tftP7 (by decide), fmt_dLB, fmt_plain tftP8 (by decide), fmt_dRB, fmt_plain tftP9 (by decide), fmt_dRB]
      rw [fmt_plain tftP10 (by decide), fmt_dRB, fmt_plain tftP11 (by decide), fmt_dLB, fmt_plain tftP12 (by decide), fmt_dRB]
      rw [fmt_plain tftP13 (by decide), fmt_dLB, fmt_plain tftP14 (by decide), fmt_dRB, fmt_plain tftP15 (by decide), fmt_dLB]
      rw [fmt_plain tftP16 (by decide), fmt_dRB, fmt_plain tftP17 (by decide), fmt_dLB, fmt_plain tftP18 (by decide), fmt_dRB]
      rw [fmt_plain tftP19 (by decide), fmt_dLB, fmt_plain tftP20 (by decide), fmt_dRB, fmt_plain tftP21 (by decide), fmt_ph_ami]
      rw [fmt_plain tftP22 (by decide), fmt_dLB, fmt_plain tftP23 (by decide), fmt_dLB, fmt_plain tftP24 (by decide), fmt_dRB]
      rw [fmt_plain tftP10 (by decide), fmt_dRB, fmt_plain tftP25 (by decide), fmt_dLB, fmt_plain tftP26 (by decide), fmt_dLB]
      rw [fmt_plain tftP27 (by decide), fmt_dRB, fmt_plain tftP10 (by decide), fmt_dRB, fmt_plain tftP28 (by decide), fmt_dLB]
      rw [fmt_plain tftP29 (by decide), fmt_dLB, fmt_plain tftP30 (by decide), fmt_dRB, fmt_plain tftP31 (by decide), fmt_dLB]
      rw [fmt_plain tftP32 (by decide), fmt_dRB, fmt_plain tftP33 (by decide), fmt_dLB, fmt_plain tftP34 (by decide), fmt_dRB]
      rw [fmt_plain tftP10 (by decide), fmt_dRB, fmt_plain tftP35 (by decide), fmt_dLB, fmt_plain tftP36 (by decide), fmt_dLB]
      rw [fmt_plain tftP37 (by decide), fmt_dRB, fmt_plain tftP38 (by decide), fmt_dLB, fmt_plain tftP39 (by decide), fmt_dRB]
      rw [fmt_plain tftP10 (by decide), fmt_dRB, fmt_plain tftP40 (by decide), fmt_dLB, fmt_plain tftP41 (by decide), fmt_dRB]
      rw [fmt_plain tftP42 (by decide), fmt_dLB, fmt_plain tftP43 (by decide), fmt_dLB, fmt_plain tftP44 (by decide), fmt_dRB]
      rw [fmt_plain tftP45 (by decide), fmt_dLB, fmt_plain tftP46 (by decide), fmt_dRB, fmt_plain tftP47 (by decide), fmt_dLB]
      rw [fmt_plain tftP48 (by decide), fmt_dRB, fmt_plain tftP10 (by decide), fmt_dRB, fmt_plain tftP49 (by decide), fmt_dLB]
      rw [fmt_plain tftP50 (by decide), fmt_ph_instance, fmt_plain tftP51 (by decide), fmt_dLB, fmt_plain tftP52 (by decide), fmt_dRB]
      rw [fmt_plain tftP53 (by decide), fmt_dLB, fmt_plain tftP54 (by decide), fmt_ph_suffix, fmt_plain tftP55 (by decide), fmt_dRB]
      rw [fmt_plain tftP10 (by decide), fmt_dRB, fmt_plain tftP56 (by decide), fmt_dLB, fmt_plain tftP57 (by decide), fmt_dLB]
      rw [fmt_plain tftP58 (by decide), fmt_dRB, fmt_plain tftP59 (by decide), fmt_dLB, fmt_plain tftP60 (by decide), fmt_dRB]
      rw [fmt_plain tftP61 (by decide), fmt_ph_remote]
    simp [terraform_fallback_main_tf, h]
  · unfold TERRAFORM_FALLBACK_TEMPLATE
    repeat first
      | exact contains_via_isPrefixOf _ _ (by decide)
      | apply contains_append_right
  · intro ns; rfl

/-! ## A small backtracking regex engine for the worker's fixed patterns

The Python sources use `re` with a fixed, closed set of patterns built
from literals, whitespace runs, digit runs, bounded repetition, optional
quotes/groups, one alternation, a negated character class and a trailing
word boundary.  The tokens below cover exactly those constructs; matching
is greedy with backtracking, as in Python's `re`. -/

/-- The character classes appearing in the worker's regexes. -/
inductive CClass where
  | ws : CClass
  | digit : CClass
  | notRParen : CClass
  | quote : CClass

/-- Membership in a character class (whitespace is ASCII whitespace; all
scanned texts are ASCII). -/
def CClass.mem : CClass → Char → Bool
  | .ws, c => (c == ' ') || (c == '\t') || (c == '\n') || (c == '\r')
      || (c == '\x0b') || (c == '\x0c')
  | .digit, c => c.isDigit
  | .notRParen, c => !(c == ')')
  | .quote, c => (c == '\'') || (c == '"')

/-- A word character for the word-boundary assertion (`[A-Za-z0-9_]`). -/
def isWordChar (c : Char) : Bool := c.isAlphanum || c == '_'

/-- Regex tokens: literal, single class char, greedy star/plus/option,
greedy bounded repetition, optional literal group, capturing digit run
(accumulated in reverse), alternation, word boundary. -/
inductive RTok where
  | lit : List Char → RTok
  | cls1 : CClass → RTok
  | star : CClass → RTok
  | plus : CClass → RTok
  | opt1 : CClass → RTok
  | rep : CClass → Nat → Nat → RTok
  | optLit : List Char → RTok
  | capDigits : List Char → RTok
  | alt : List RTok → List RTok → RTok
  | wordB : RTok

/-- The previous-character context after consuming a literal. -/
def prevAfterLit (l : List Char) (prev : Option Char) : Option Char :=
  match l.getLast? with
  | some c => some c
  | none => prev

/-- Fuelled greedy backtracking matcher.  `prev` is the character just
before the current position (for the word-boundary assertion); `cap` the
digit capture, if committed.  Returns the unmatched remainder and the
capture.  Every recursive call strictly decreases the remaining input
plus the pending token weight, so the fuel chosen by `tryMatch` never
runs out. -/
def matchToks : Nat → List RTok → Option Char → List Char → Option (List Char) →
    Option (List Char × Option (List Char))
  | 0, _, _, _, _ => none
  | _ + 1, [], _, cs, cap => some (cs, cap)
  | fuel + 1, t :: ts, prev, cs, cap =>
    match t with
    | .lit l =>
      if l.isPrefixOf cs then
        matchToks fuel ts (prevAfterLit l prev) (cs.drop l.length) cap
      else none
    | .cls1 cc =>
      match cs with
      | c :: cs' => if cc.mem c then matchToks fuel ts (some c) cs' cap else none
      | [] => none
    | .star cc =>
      match cs with
      | c :: cs' =>
        if cc.mem c then
          match matchToks fuel (RTok.star cc :: ts) (some c) cs' cap with
          | some r => some r
          | none => matchToks fuel ts prev cs cap
        else matchToks fuel ts prev cs cap
      | [] => matchToks fuel ts prev [] cap
    | .plus cc =>
      match cs with
      | c :: cs' =>
        if cc.mem c then matchToks fuel (RTok.star cc :: ts) (some c) cs' cap else none
      | [] => none
    | .opt1 cc =>
      match cs with
      | c :: cs' =>
        if cc.mem c then
          match matchToks fuel ts (some c) cs' cap with
          | some r => some r
          | none => matchToks fuel ts prev cs cap
        else matchToks fuel ts prev cs cap
      | [] => matchToks fuel ts prev [] cap
    | .rep cc mn mx =>
      match mx, cs with
      | 0, _ => if mn = 0 then matchToks fuel ts prev cs cap else none
      | m + 1, c :: cs' =>
        if cc.mem c then
          match matchToks fuel (RTok.rep cc (mn - 1) m :: ts) (some c) cs' cap with
          | some r => some r
          | none => if mn = 0 then matchToks fuel ts prev cs cap else none
        else if mn = 0 then matchToks fuel ts prev cs cap else none
      | _ + 1, [] => if mn = 0 then matchToks fuel ts prev [] cap else none
    | .optLit l =>
      if l.isPrefixOf cs then
        match matchToks fuel ts (prevAfterLit l prev) (cs.drop l.length) cap with
        | some r => some r
        | none => matchToks fuel ts prev cs cap
      else matchToks fuel ts prev cs cap
    | .capDigits acc =>
      match cs with
      | c :: cs' =>
        if c.isDigit then
          match matchToks fuel (RTok.capDigits (c :: acc) :: ts) (some c) cs' cap with
          | some r => some r
          | none =>
            if acc.isEmpty then none
            else matchToks fuel ts prev cs (some acc.reverse)
        else if acc.isEmpty then none
        else matchToks fuel ts prev cs (some acc.reverse)
      | [] =>
        if acc.isEmpty then none
        else matchToks fuel ts prev [] (some acc.reverse)
    | .alt t1 t2 =>
      match matchToks fuel (t1 ++ ts) prev cs cap with
      | some r => some r
      | none => matchToks fuel (t2 ++ ts) prev cs cap
    | .wordB =>
      let pw := match prev with | some p => isWordChar p | none => false
      let nw := match cs with | c :: _ => isWordChar c | [] => false
      if pw != nw then matchToks fuel ts prev cs cap else none

/-- Weight of a token for the fuel bound.  Alternation counts its
branches at the maximal per-token weight of 2; none of the worker's
patterns nests an alternation inside an alternation, so the weight of a
branch never exceeds twice its length. -/
def tokWeight : RTok → Nat
  | .alt t1 t2 => 1 + 2 * t1.length + 2 * t2.length
  | .plus _ => 2
  | _ => 1

/-- Weight of a token list. -/
def toksWeight (ts : List RTok) : Nat := (ts.map tokWeight).sum

/-- Match a pattern at the current position with sufficient fuel. -/
def tryMatch (toks : List RTok) (prev : Option Char) (cs : List Char) :
    Option (List Char × Option (List Char)) :=
  matchToks (cs.length + toksWeight toks + 1) toks prev cs none

/-- Python `re.search`: scan positions left to right, return the first match's
digit capture (`some none` for a match without committed capture). -/
def reSearchFrom (toks : List RTok) : Option Char → List Char → Option (Option (List Char))
  | prev, [] =>
    match tryMatch toks prev [] with
    | some (_, cap) => some cap
    | none => none
  | prev, c :: cs =>
    match tryMatch toks prev (c :: cs) with
    | some (_, cap) => some cap
    | none => reSearchFrom toks (some c) cs

/-- Python `re.search(pattern, text)` from the start of the text. -/
def reSearch (toks : List RTok) (cs : List Char) : Option (Option (List Char)) :=
  reSearchFrom toks none cs

/-- True when the pattern matches at no position of the text
(`re.search` returns no match). -/
def noMatchFrom (toks : List RTok) : Option Char → List Char → Bool
  | prev, [] => (tryMatch toks prev []).isNone
  | prev, c :: cs => (tryMatch toks prev (c :: cs)).isNone && noMatchFrom toks (some c) cs

/-- The last character of the consumed part of `cs` once `rest` remains
(previous-character context for the scan continuing after a match). -/
def lastConsumed (cs rest : List Char) (prev : Option Char) : Option Char :=
  prevAfterLit (cs.take (cs.length - rest.length)) prev

/-- Fuelled core of `re.sub`: leftmost non-overlapping matches are
replaced by `repl`; a zero-width match keeps the current character
(none of the worker's patterns can match the empty string).  The
accumulator holds the output in reverse. -/
def reSubAux (toks : List RTok) (repl : List Char) :
    Nat → Option Char → List Char → List Char → List Char
  | 0, _, acc, cs => acc.reverse ++ cs
  | _ + 1, prev, acc, [] =>
    match tryMatch toks prev [] with
    | some _ => acc.reverse ++ repl
    | none => acc.reverse
  | fuel + 1, prev, acc, c :: cs =>
    match tryMatch toks prev (c :: cs) with
    | some (rest, _) =>
      if rest.length < (c :: cs).length then
        reSubAux toks repl fuel (lastConsumed (c :: cs) rest prev)
          (repl.reverseAux acc) rest
      else reSubAux toks repl fuel (some c) (c :: acc) cs
    | none => reSubAux toks repl fuel (some c) (c :: acc) cs

/-- Python `re.sub(pattern, repl, text)` with a fixed replacement string. -/
def reSub (toks : List RTok) (repl : List Char) (cs : List Char) : List Char :=
  reSubAux toks repl (cs.length + 1) none [] cs

/-- When `re.search` finds no match, `re.sub` returns the text
unchanged. -/
theorem reSub_id_of_noMatch (toks : List RTok) (repl : List Char) :
    ∀ fuel prev acc cs, noMatchFrom toks prev cs = true →
      reSubAux toks repl fuel prev acc cs = acc.reverse ++ cs := by
  intro fuel
  induction fuel with
  | zero => intro prev acc cs _; rfl
  | succ n ih =>
    intro prev acc cs h
    cases cs with
    | nil =>
      simp only [noMatchFrom, Option.isNone_iff_eq_none] at h
      simp [reSubAux, h]
    | cons c cs' =>
      simp only [noMatchFrom, Bool.and_eq_true, Option.isNone_iff_eq_none] at h
      obtain ⟨h1, h2⟩ := h
      simp only [reSubAux, h1]
      rw [ih (some c) (c :: acc) cs' h2]
      simp

/-! ## `_normalize_tf` (worker.py lines 566-574) -/

/-- Pattern of the first rewrite: `tar`, whitespace, `-xzf`, whitespace,
the archive path, whitespace, `-C`, whitespace, `/opt/app`, word
boundary. -/
def tarOptAppPat : List RTok :=
  [.lit ("tar".data), .plus .ws, .lit ("-xzf".data), .plus .ws,
   .lit ("/home/ubuntu/app.tar.gz".data), .plus .ws, .lit ("-C".data),
   .plus .ws, .lit ("/opt/app".data), .wordB]

/-- Pattern of the second rewrite (`-C /opt` with a word boundary). -/
def tarOptPat : List RTok :=
  [.lit ("tar".data), .plus .ws, .lit ("-xzf".data), .plus .ws,
   .lit ("/home/ubuntu/app.tar.gz".data), .plus .ws, .lit ("-C".data),
   .plus .ws, .lit ("/opt".data), .wordB]

/-- Replacement of both tar rewrites. -/
def tarRepl : List Char := ("tar -xzf /home/ubuntu/app.tar.gz -C /opt/").data

/-- Pattern of the third rewrite (`cd /opt/app/app` with a word
boundary). -/
def cdAppAppPat : List RTok :=
  [.lit ("cd".data), .plus .ws, .lit ("/opt/app/app".data), .wordB]

/-- Replacement of the third rewrite. -/
def cdAppRepl : List Char := ("cd /opt/app").data

/-- Embedding of `_normalize_tf(code)` (worker.py lines 566-572): three
`re.sub` passes, applied in order. -/
def normalize_tf (code : List Char) : List Char :=
  reSub cdAppAppPat cdAppRepl (reSub tarOptPat tarRepl (reSub tarOptAppPat tarRepl code))

/-- A tar-extraction line on which `_normalize_tf` is not idempotent. -/
def c6Example : List Char := ("tar -xzf /home/ubuntu/app.tar.gz -C /opt").data

/-- C6 counterexample: `_normalize_tf` is not idempotent.  One
application rewrites the example to end in `/opt/`; that output still
matches the `-C /opt` word-boundary pattern, so a second application
appends another slash. -/
theorem C6_counterexample :
    ¬ (normalize_tf (normalize_tf c6Example) = normalize_tf c6Example) := by
  decide

/-- True when none of `_normalize_tf`'s three rewrite patterns matches
anywhere in the text, i.e. another pass of the rewrite would fire no
rule. -/
def normalizeTfMatchFree (t : List Char) : Bool :=
  noMatchFrom tarOptAppPat none t && noMatchFrom tarOptPat none t
    && noMatchFrom cdAppAppPat none t

/-- C6 amended: `_normalize_tf` is not idempotent in general, because
its own tar-rewrite output `... -C /opt/` still matches the `-C /opt`
word-boundary pattern and gains one more trailing slash per application;
a second application changes nothing precisely in the absence of such
residual matches: whenever the first application's output matches none
of the three rewrite patterns, `_normalize_tf(_normalize_tf(s)) =
_normalize_tf(s)`.  (This covers more than the function's fixed points:
the witness below rewrites `cd /opt/app/app` to `cd /opt/app` on the
first pass and is then stable.) -/
theorem C6_amended_second_pass_noop (s : List Char)
    (h : normalizeTfMatchFree (normalize_tf s) = true) :
    normalize_tf (normalize_tf s) = normalize_tf s := by
  simp only [normalizeTfMatchFree, Bool.and_eq_true] at h
  obtain ⟨⟨h1, h2⟩, h3⟩ := h
  have e1 : reSub tarOptAppPat tarRepl (normalize_tf s) = normalize_tf s := by
    have := reSub_id_of_noMatch tarOptAppPat tarRepl
      ((normalize_tf s).length + 1) none [] (normalize_tf s) h1
    simpa [reSub] using this
  have e2 : reSub tarOptPat tarRepl (normalize_tf s) = normalize_tf s := by
    have := reSub_id_of_noMatch tarOptPat tarRepl
      ((normalize_tf s).length + 1) none [] (normalize_tf s) h2
    simpa [reSub] using this
  have e3 : reSub cdAppAppPat cdAppRepl (normalize_tf s) = normalize_tf s := by
    have := reSub_id_of_noMatch cdAppAppPat cdAppRepl
      ((normalize_tf s).length + 1) none [] (normalize_tf s) h3
    simpa [reSub] using this
  calc normalize_tf (normalize_tf s)
      = reSub cdAppAppPat cdAppRepl (reSub tarOptPat tarRepl
          (reSub tarOptAppPat tarRepl (normalize_tf s))) := rfl
    _ = normalize_tf s := by rw [e1, e2, e3]

/-- Witness for C6's amended statement at a concrete input that is
genuinely rewritten on the first pass (`cd /opt/app/app` becomes
`cd /opt/app`, so it is not a fixed point) and whose image is free of
residual matches, making the second pass a no-op. -/
theorem C6_amended_second_pass_noop_witness :
    normalize_tf (("cd /opt/app/app").data) = ("cd /opt/app").data
    ∧ normalizeTfMatchFree (normalize_tf (("cd /opt/app/app").data)) = true
    ∧ normalize_tf (normalize_tf (("cd /opt/app/app").data))
      = normalize_tf (("cd /opt/app/app").data) :=
  ⟨by decide, by decide, C6_amended_second_pass_noop _ (by decide)⟩

/-! ## RepoAnalyzer: `is_http_service` and `infer_app_port`
(worker.py lines 63-141) -/

/-- One file of a cloned repository snapshot: directory components
relative to the repository root, base name, and text content, in
`os.walk` iteration order. -/
structure SFile where
  dirs : List (List Char)
  name : List Char
  content : List Char
deriving DecidableEq

/-- A repository snapshot: the `repo_dir` path handed to the analyzers
plus the walked files.  The analyzers read only the files. -/
structure Snapshot where
  rootPath : List Char
  files : List SFile
deriving DecidableEq

/-- Embedding of `COMMON_HTTP_HINTS` (worker.py lines 63-79), one token list per
regex. -/
def COMMON_HTTP_HINTS : List (List RTok) :=
  [ [.lit ("from".data), .plus .ws, .lit ("flask".data), .plus .ws,
     .lit ("import".data), .plus .ws],
    [.lit ("from".data), .plus .ws, .lit ("fastapi".data), .plus .ws,
     .lit ("import".data), .plus .ws],
    [.lit ("django.core".data)],
    [.lit ("uvicorn.run".data)],
    [.lit ("app.run(".data)],
    [.lit ("require(".data), .cls1 .quote, .lit ("express".data), .cls1 .quote,
     .lit (")".data)],
    [.alt [.lit ("from".data), .plus .ws, .lit ("express".data), .plus .ws,
           .lit ("import".data)]
          [.lit ("from".data), .plus .ws, .cls1 .quote, .lit ("express".data),
           .cls1 .quote]],
    [.lit ("app.listen(".data)],
    [.lit ("http.ListenAndServe(".data)],
    [.lit ("@RestController".data)],
    [.lit ("SpringApplication.run(".data)] ]

/-- True when one of the suffixes ends the string (Python
`str.endswith` on a tuple). -/
def endsWithAny (sufs : List (List Char)) (s : List Char) : Bool :=
  sufs.any (fun suf => suf.isSuffixOf s)

/-- Extensions scanned by `is_http_service`. -/
def HTTP_EXTS : List (List Char) :=
  [(".py").data, (".js").data, (".ts").data, (".go").data, (".java").data,
   (".kt").data, (".rb").data, (".rs").data]

/-- Well-known file names scanned by `is_http_service` (note:
`compose.yml` is absent here, unlike in `infer_app_port`). -/
def HTTP_NAMES : List (List Char) :=
  [("dockerfile").data, ("compose.yaml").data, ("docker-compose.yml").data]

/-- File-name filter of `is_http_service` (worker.py line 95). -/
def httpFileFilter (name : List Char) : Bool :=
  endsWithAny HTTP_EXTS name || HTTP_NAMES.contains (lowerChars name)

/-- Embedding of `is_http_service(repo_dir)` (worker.py lines 92-104):
true when some scanned file's content matches one of the HTTP hints. -/
def is_http_service (files : List SFile) : Bool :=
  files.any (fun f =>
    httpFileFilter f.name
    && COMMON_HTTP_HINTS.any (fun pat => (reSearch pat f.content).isSome))

/-- Embedding of `PORT_PATTERNS` (worker.py lines 82-89), one token list per regex,
in source order. -/
def PORT_PATTERNS : List (List RTok) :=
  [ [.lit ("EXPOSE".data), .plus .ws, .capDigits []],
    [.lit ("ports:".data), .star .ws, .lit ("\n".data), .star .ws,
     .lit ("-".data), .star .ws, .opt1 .quote, .capDigits [], .lit (":".data)],
    [.lit ("port".data), .star .ws, .lit ("=".data), .star .ws, .capDigits []],
    [.lit ("listen(".data), .star .ws, .capDigits [], .star .ws, .lit (")".data)],
    [.lit ("run(".data), .star .notRParen, .lit ("port".data), .star .ws,
     .lit ("=".data), .star .ws, .capDigits []],
    [.lit ("--port".data), .alt [.lit ("=".data)] [.plus .ws], .capDigits []] ]

/-- File names accepted by `infer_app_port`'s first tier. -/
def PORT_FILE_NAMES : List (List Char) :=
  [("dockerfile").data, ("docker-compose.yml").data, ("compose.yaml").data,
   ("compose.yml").data]

/-- Extensions accepted by `infer_app_port`'s first tier. -/
def PORT_EXTS : List (List Char) :=
  [(".py").data, (".js").data, (".ts").data, (".go").data]

/-- File-name filter of `infer_app_port`'s first tier (worker.py line
110). -/
def portFileFilter (name : List Char) : Bool :=
  PORT_FILE_NAMES.contains (lowerChars name) || endsWithAny PORT_EXTS name

/-- Python `int` on a captured digit run. -/
def digitsToNat (ds : List Char) : Nat :=
  ds.foldl (fun n c => n * 10 + (c.toNat - 48)) 0

/-- First tier of `infer_app_port` (worker.py lines 108-122): first file
in walk order whose name passes the filter and in which some pattern —
tried in source order — captures a port within `[1, 65535]`. -/
def tier1Port (files : List SFile) : Option Nat :=
  files.findSome? (fun f =>
    if portFileFilter f.name then
      PORT_PATTERNS.findSome? (fun pat =>
        match reSearch pat f.content with
        | some (some ds) =>
          let p := digitsToNat ds
          if 1 ≤ p && p ≤ 65535 then some p else none
        | _ => none)
    else none)

/-- The framework-name fallback table (worker.py lines 124-127). -/
def FRAMEWORK_HINTS : List (List Char × Nat) :=
  [(("flask").data, 5000), (("fastapi").data, 8000), (("django").data, 8000),
   (("express").data, 3000), (("next").data, 3000), (("rails").data, 3000),
   (("spring").data, 8080), (("go").data, 8080)]

/-- Extensions accepted by `infer_app_port`'s second tier. -/
def HINT_EXTS : List (List Char) :=
  [(".py").data, (".js").data, (".ts").data, (".rb").data, (".java").data,
   (".go").data]

/-- Second tier of `infer_app_port` (worker.py lines 128-139): first
framework hint — in table order — found case-insensitively in some
scanned file. -/
def tier2Port (files : List SFile) : Option Nat :=
  FRAMEWORK_HINTS.findSome? (fun np =>
    if files.any (fun f =>
        endsWithAny HINT_EXTS f.name && containsSubstr np.1 (lowerChars f.content))
    then some np.2 else none)

/-- Embedding of `infer_app_port(repo_dir, log)` (worker.py lines
107-141): tier 1, then tier 2, then the 8080 default.  The function
reads only the snapshot's file list. -/
def infer_app_port (snap : Snapshot) : Nat :=
  match tier1Port snap.files with
  | some p => p
  | none =>
    match tier2Port snap.files with
    | some p => p
    | none => 8080

/-- C8: `infer_app_port` is deterministic — it depends only on the
snapshot's file contents and iteration order, not on the repository
path or any other ambient state, so identical snapshots yield identical
ports on every run. -/
theorem C8_infer_port_deterministic (s₁ s₂ : Snapshot) (h : s₁.files = s₂.files) :
    infer_app_port s₁ = infer_app_port s₂ := by
  unfold infer_app_port
  rw [h]

/-- A demo file used by the C8 witness. -/
def c8File : SFile := ⟨[], ("main.py").data, ("from flask import Flask").data⟩

/-- Witness for C8: two snapshots of the same content in different
working directories infer the same port. -/
theorem C8_infer_port_deterministic_witness :
    infer_app_port ⟨("/data/autodeploy/job1/repo").data, [c8File]⟩
    = infer_app_port ⟨("/data/autodeploy/job2/repo").data, [c8File]⟩ :=
  C8_infer_port_deterministic _ _ rfl

/-! ## `apply_repo_rewrites` (worker.py lines 377-425) -/

/-- One file seen by the rewrite pass: directory components, name, byte
size (`os.path.getsize`), and content. -/
structure RFile where
  dirs : List (List Char)
  name : List Char
  size : Nat
  content : List Char
deriving DecidableEq

/-- The directories pruned from the walk (worker.py line 388). -/
def SKIPPED_DIRS : List (List Char) :=
  [(".git").data, ("node_modules").data, (".venv").data, ("venv").data,
   ("dist").data, ("build").data, ("__pycache__").data, (".terraform").data]

/-- The single rewrite pattern (worker.py line 385): an
`http`/`https` localhost URL with a one-to-five-digit port followed by a
word boundary; the replacement is empty. -/
def localhostUrlPat : List RTok :=
  [.lit ("http".data), .optLit ("s".data), .lit ("://localhost:".data),
   .rep .digit 1 5, .wordB]

/-- The NUL byte used for the binary-file sniff. -/
def nulChar : Char := Char.ofNat 0

/-- Per-file action of `apply_repo_rewrites`: files inside skipped
directories, files over 2 MiB and files with a NUL in their first 2048
bytes are left alone; all other files get every localhost-URL match
deleted (the file is written back only when something was replaced, so
the content is unchanged exactly when no match exists). -/
def rewriteFile (f : RFile) : RFile :=
  if f.dirs.any (fun d => SKIPPED_DIRS.contains d) then f
  else if 2 * 1024 * 1024 < f.size then f
  else if (f.content.take 2048).contains nulChar then f
  else { f with content := reSub localhostUrlPat [] f.content }

/-- Embedding of `apply_repo_rewrites(repo_dir, log)`: the rewrite is
applied to every walked file. -/
def apply_repo_rewrites (files : List RFile) : List RFile :=
  files.map rewriteFile

/-- C9: before archiving, the pipeline deletes every
`http(s)://localhost:<port>` URL (ports of one to five digits) from
every non-binary file of at most 2 MiB outside the skipped directories,
and leaves every other file — and every file without such a URL —
unchanged. -/
theorem C9_apply_repo_rewrites (files : List RFile) (f : RFile) (hf : f ∈ files) :
    rewriteFile f ∈ apply_repo_rewrites files
    ∧ (f.dirs.any (fun d => SKIPPED_DIRS.contains d) = true → rewriteFile f = f)
    ∧ (2 * 1024 * 1024 < f.size → rewriteFile f = f)
    ∧ ((f.content.take 2048).contains nulChar = true → rewriteFile f = f)
    ∧ (f.dirs.any (fun d => SKIPPED_DIRS.contains d) = false →
        f.size ≤ 2 * 1024 * 1024 →
        (f.content.take 2048).contains nulChar = false →
        (rewriteFile f).content = reSub localhostUrlPat [] f.content)
    ∧ (noMatchFrom localhostUrlPat none f.content = true → rewriteFile f = f) := by
  refine ⟨List.mem_map_of_mem _ hf, ?_, ?_, ?_, ?_, ?_⟩
  · intro h
    unfold rewriteFile
    split_ifs with h1 h2 h3 <;> first | rfl | exact absurd h h1
  · intro h
    unfold rewriteFile
    split_ifs with h1 h2 h3 <;> first | rfl | exact absurd h h2
  · intro h
    unfold rewriteFile
    split_ifs with h1 h2 h3 <;> first | rfl | exact absurd h h3
  · intro h1 h2 h3
    unfold rewriteFile
    split_ifs with g1 g2 g3
    · rw [h1] at g1; exact absurd g1 (by decide)
    · omega
    · rw [h3] at g3; exact absurd g3 (by decide)
    · rfl
  · intro h
    have hid : reSub localhostUrlPat [] f.content = f.content := by
      have := reSub_id_of_noMatch localhostUrlPat []
        (f.content.length + 1) none [] f.content h
      simpa [reSub] using this
    unfold rewriteFile
    split_ifs <;> simp [hid]

/-- A text file holding a localhost URL, for the C9 witness. -/
def c9File : RFile :=
  ⟨[("docs").data], ("index.md").data, 30, ("see http://localhost:8080/path").data⟩

/-- Witness for C9 at a concrete file: the URL is deleted, the file is
in the rewritten list, and the concrete output is as expected. -/
theorem C9_apply_repo_rewrites_witness :
    (rewriteFile c9File).content = reSub localhostUrlPat [] c9File.content
    ∧ rewriteFile c9File ∈ apply_repo_rewrites [c9File]
    ∧ (rewriteFile c9File).content = ("see /path").data := by
  have h := C9_apply_repo_rewrites [c9File] c9File (by simp)
  exact ⟨h.2.2.2.2.1 (by decide) (by decide) (by decide), h.1, by decide⟩


/-! ## `extract_code_block` (worker.py lines 455-471) -/

/-- Find the first close fence `newline + three backticks` in the text;
returns the text before it and the remainder after it. -/
def findCloseFence : List Char → Option (List Char × List Char)
  | [] => none
  | c :: cs =>
    if ("\n```".data).isPrefixOf (c :: cs) then some ([], (c :: cs).drop 4)
    else
      match findCloseFence cs with
      | some (pre, rest) => some (c :: pre, rest)
      | none => none

/-- The fenced-block search: at each position, an opening triple
backtick, the rest of its line, a newline, then a lazily captured body
up to the first close fence.  Mirrors
`re.search("triple-backtick [^newline]* newline (lazy any) newline triple-backtick")`. -/
def fenceSearch : List Char → Option (List Char)
  | [] => none
  | c :: cs =>
    if ("```".data).isPrefixOf (c :: cs) then
      match ((c :: cs).drop 3).dropWhile (fun x => !(x == '\n')) with
      | _ :: body =>
        match findCloseFence body with
        | some (inner, _) => some inner
        | none => fenceSearch cs
      | [] => fenceSearch cs
    else fenceSearch cs

/-- Python `str.strip()` (ASCII whitespace). -/
def pyStrip (s : List Char) : List Char :=
  ((s.dropWhile CClass.ws.mem).reverse.dropWhile CClass.ws.mem).reverse

/-- Fuelled Python `str.splitlines()` for newline-separated text. -/
def splitLinesAux : Nat → List Char → List (List Char)
  | 0, _ => []
  | _ + 1, [] => []
  | fuel + 1, cs =>
    let line := cs.takeWhile (fun c => !(c == '\n'))
    match cs.dropWhile (fun c => !(c == '\n')) with
    | _ :: rest => line :: splitLinesAux fuel rest
    | [] => [line]

/-- See `splitLinesAux`. -/
def splitLines (cs : List Char) : List (List Char) :=
  splitLinesAux (cs.length + 1) cs

/-- Python `"newline".join(lines)`. -/
def joinNl : List (List Char) → List Char
  | [] => []
  | [l] => l
  | l :: ls => l ++ '\n' :: joinNl ls

/-- Embedding of `extract_code_block(text)` (worker.py lines 455-471):
first fenced block if any; else strip and unwrap whole-text fences; else
unwrap triple-quote wrappers (rescanning for a fence inside); else the
stripped text. -/
def extract_code_block (text : List Char) : List Char :=
  match fenceSearch text with
  | some inner => inner
  | none =>
    let stripped := pyStrip text
    let lines := splitLines stripped
    if 2 ≤ lines.length
        && ("```".data).isPrefixOf (lines.headD [])
        && ("```".data).isPrefixOf (lines.getLastD []) then
      joinNl ((lines.drop 1).dropLast)
    else if 4 ≤ lines.length
        && ("\"\"\"".data).isPrefixOf (lines.headD [])
        && ("\"\"\"".data).isPrefixOf (lines.getLastD []) then
      let inner := pyStrip (joinNl ((lines.drop 1).dropLast))
      match fenceSearch inner with
      | some inner2 => inner2
      | none => inner
    else stripped

/-! ## `ensure_docker_assets` (worker.py lines 144-374) -/

/-- Exact value of `MAKEFILE_TEMPLATE` (app/templates.py, after its lstrip). -/
def MAKEFILE_TEMPLATE : List Char :=
  (".PHONY: up down logs\n\nup:\n\t@if [ -f setup.sh ]; then \t\techo \"Running setup.sh\"; \t\tbash ./setup.sh; \tfi\n\tdocker compose up -d --build\n\tdocker compose ps\n\nlogs:\n\tdocker compose logs -f --tail=100\n\ndown:\n\tdocker compose down -v\n").data

/-- Exact text of the Docker-in-Docker wrapper compose written when the
repository is dockerized, binds localhost, and compose generation failed
(worker.py lines 332-346; an f-string, so the port placeholder is a
format field here). -/
def DIND_WRAPPER_LOCALHOST_TEMPLATE : List Char :=
  ("\nversion: '3.9'\nservices:\n  dind:\n    image: docker:27-dind\n    privileged: true\n    environment:\n      - DOCKER_TLS_CERTDIR=\n    ports:\n      - \"8080:8080\"\n    volumes:\n      - ./:/workspace\n    command: >-\n      sh -lc \"dockerd-entrypoint.sh &\n      while ! docker info >/dev/null 2>&1; do sleep 1; done;\n      cd /workspace && ./setup.sh || true;\n      echo 'Bypassing inner compose to enforce external bind';\n      docker build -t app . && docker run -d -p 8080:\x7binternal_port\x7d --name inner-app app sh -lc 'gunicorn app:app -b 0.0.0.0:\x7binternal_port\x7d || gunicorn main:app -b 0.0.0.0:\x7binternal_port\x7d || python3 -m flask --app app run --host 0.0.0.0 --port \x7binternal_port\x7d || python3 -m flask --app main run --host 0.0.0.0 --port \x7binternal_port\x7d';\n      tail -f /dev/null\"\n").data

/-- Exact text of the default Docker-in-Docker wrapper compose
(worker.py lines 348-362). -/
def DIND_WRAPPER_DEFAULT_TEMPLATE : List Char :=
  ("\nversion: '3.9'\nservices:\n  dind:\n    image: docker:27-dind\n    privileged: true\n    environment:\n      - DOCKER_TLS_CERTDIR=\n    ports:\n      - \"8080:8080\"\n    volumes:\n      - ./:/workspace\n    command: >-\n      sh -lc \"dockerd-entrypoint.sh &\n      while ! docker info >/dev/null 2>&1; do sleep 1; done;\n      cd /workspace && ./setup.sh || true;\n      if [ -f docker-compose.yml ] || [ -f compose.yaml ] || [ -f compose.yml ]; then\n        docker compose up -d --build;\n      else\n        echo 'No inner compose found; attempting to build Dockerfile and run';\n        docker build -t app . && docker run -d -p 8080:\x7binternal_port\x7d --name inner-app app;\n      fi;\n      tail -f /dev/null\"\n").data

/-- The names signalling an already-dockerized repository (worker.py
lines 217-224). -/
def DOCKER_NAMES : List (List Char) :=
  [("dockerfile").data, ("docker-compose.yml").data, ("compose.yaml").data,
   ("compose.yml").data]

/-- Source extensions scanned by `detect_localhost_binding`. -/
def BIND_EXTS : List (List Char) := [(".py").data, (".js").data, (".ts").data]

/-- The three loopback-binding regexes of `detect_localhost_binding`
(worker.py lines 196-200). -/
def LOCALHOST_BIND_PATTERNS : List (List RTok) :=
  [ [.lit ("app.run(".data), .star .notRParen, .lit ("host".data), .star .ws,
     .lit ("=".data), .star .ws, .cls1 .quote, .lit ("127.0.0.1".data),
     .cls1 .quote],
    [.lit ("host".data), .star .ws, .lit ("=".data), .star .ws, .cls1 .quote,
     .lit ("localhost".data), .cls1 .quote],
    [.lit ("--host=127.0.0.1".data)] ]

/-- Embedding of `detect_localhost_binding(root)` (worker.py lines
195-213). -/
def detect_localhost_binding (files : List SFile) : Bool :=
  files.any (fun f =>
    endsWithAny BIND_EXTS f.name
    && LOCALHOST_BIND_PATTERNS.any (fun p => (reSearch p f.content).isSome))

/-- The build-file acceptance predicate (the `acceptable` closure at
worker.py lines 244-254): base image, an expose of the target port or an
environment-driven expose, a start command, no leftover code fence, and
— when the repository binds only loopback — the all-interfaces bind
literal. -/
def dockerfile_acceptable (internal_port : Nat) (binds_localhost : Bool)
    (df : List Char) : Bool :=
  let s := lowerChars df
  containsSubstr ("from ".data) s
  && (containsSubstr (("expose ").data ++ (toString internal_port).data) s
      || containsSubstr (("expose $\x7bport\x7d").data) s
      || containsSubstr (("expose $\x7benv:port\x7d").data) s)
  && (containsSubstr ("cmd".data) s || containsSubstr ("entrypoint".data) s)
  && !(containsSubstr ("```".data) df)
  && (!binds_localhost || containsSubstr ("0.0.0.0".data) s)

/-- Modelled from the spec: `DOCKERFILE_FALLBACK_TEMPLATE` is imported
by worker.py from app/templates.py, but its definition is missing from
the provided sources.  Per the spec (a static parameterized build-file
fallback guaranteed to satisfy its own acceptance predicate: base-image
declaration, expose of the inferred port, all-interfaces bind, start
command), rendered at the given port. -/
def DOCKERFILE_FALLBACK_RENDERED (internal_port : Nat) : List Char :=
  ("FROM python:3.11-slim\nWORKDIR /app\nCOPY . /app\nRUN pip install -r requirements.txt || true\nENV PORT=").data
  ++ (toString internal_port).data
  ++ ("\nEXPOSE ").data ++ (toString internal_port).data
  ++ ("\nCMD gunicorn app:app -b 0.0.0.0:").data
  ++ (toString internal_port).data ++ ("\n").data

/-- The minimal setup script written when generation fails (worker.py
line 294). -/
def SETUP_PLACEHOLDER : List Char :=
  ("#!/usr/bin/env bash\nset -euo pipefail\necho 'No setup required.'\n").data

/-- The shebang and fail-fast prefix prepended to generated setup
scripts lacking one (worker.py line 283). -/
def SETUP_SHEBANG : List Char := ("#!/usr/bin/env bash\nset -euo pipefail\n").data

/-- An external generation oracle outcome per artifact kind: `some`
response text, or `none` for a transport failure/empty response. -/
structure Oracle where
  dockerfile : Option (List Char)
  setupScript : Option (List Char)
  compose : Option (List Char)
  terraform : Option (List Char)

/-- Observable pipeline effects, in order: clone, tree listing, artifact
file writes (path and content), the repo-wide rewrite pass, archiving,
the archive copy into the provisioning directory, and the provisioning
tool's init/plan/apply invocations. -/
inductive PEvent where
  | cloned : PEvent
  | treeListed : PEvent
  | wroteFile : List Char → List Char → PEvent
  | rewroteRepo : PEvent
  | archived : PEvent
  | copiedArchive : PEvent
  | tfInit : PEvent
  | tfPlan : PEvent
  | tfApply : PEvent
deriving DecidableEq

/-- An event that writes a containerization or infrastructure artifact
into the working directory. -/
def isArtifactWrite : PEvent → Bool
  | .wroteFile _ _ => true
  | .copiedArchive => true
  | _ => false

/-- An invocation of the provisioning tool. -/
def isProvisionStep : PEvent → Bool
  | .tfInit => true
  | .tfPlan => true
  | .tfApply => true
  | _ => false

/-- Events of `ensure_docker_assets(repo_dir, internal_port, log)`
(worker.py lines 144-374): Dockerfile synthesis (or setup.sh for
dockerized repositories), compose synthesis with its fallbacks, and the
Makefile write. -/
def ensure_docker_assets (files : List SFile) (port : Nat) (oracle : Oracle) :
    List PEvent :=
  let hasDocker := files.any (fun f => DOCKER_NAMES.contains (lowerChars f.name))
  let binds := detect_localhost_binding files
  let firstEvs :=
    if !hasDocker then
      match oracle.dockerfile with
      | some resp =>
        let df := extract_code_block resp
        if !df.isEmpty && dockerfile_acceptable port binds df then
          [PEvent.wroteFile (("repo/Dockerfile").data) (pyStrip df ++ ("\n").data)]
        else [PEvent.wroteFile (("repo/Dockerfile").data) (DOCKERFILE_FALLBACK_RENDERED port)]
      | none => [PEvent.wroteFile (("repo/Dockerfile").data) (DOCKERFILE_FALLBACK_RENDERED port)]
    else
      match oracle.setupScript with
      | some resp =>
        let s0 := extract_code_block resp
        let script := if s0.isEmpty then resp else s0
        if (pyStrip script).isEmpty then
          [PEvent.wroteFile (("repo/setup.sh").data) SETUP_PLACEHOLDER]
        else
          let script2 :=
            if !containsSubstr ("#!/".data) ((splitLines script).headD []) then
              SETUP_SHEBANG ++ script
            else script
          [PEvent.wroteFile (("repo/setup.sh").data) (pyStrip script2 ++ ("\n").data)]
      | none => [PEvent.wroteFile (("repo/setup.sh").data) SETUP_PLACEHOLDER]
  let composeFallback :=
    if !hasDocker then
      [PEvent.wroteFile (("repo/docker-compose.yml").data)
        ((pyFormat [(("internal_port").data, (toString port).data)] COMPOSE_TEMPLATE).getD [])]
    else if binds then
      [PEvent.wroteFile (("repo/docker-compose.yml").data)
        ((pyFormat [(("internal_port").data, (toString port).data)] DIND_WRAPPER_LOCALHOST_TEMPLATE).getD [])]
    else
      [PEvent.wroteFile (("repo/docker-compose.yml").data)
        ((pyFormat [(("internal_port").data, (toString port).data)] DIND_WRAPPER_DEFAULT_TEMPLATE).getD [])]
  let composeEvs :=
    match oracle.compose with
    | some resp =>
      let e := extract_code_block resp
      let cy := if e.isEmpty then resp else e
      if containsSubstr ("services:".data) cy then
        let cy2 := replaceAllLit (("$\x7bPORT\x7d").data) (("$$PORT").data) cy
        let cy3 := replaceAllLit (("$\x7bport\x7d").data) (("$$PORT").data) cy2
        let cy4 := replaceAllLit (("8080:$\x7bPORT\x7d").data)
          ((("8080:").data) ++ (toString port).data) cy3
        let cy5 := replaceAllLit (("8080:$\x7bport\x7d").data)
          ((("8080:").data) ++ (toString port).data) cy4
        [PEvent.wroteFile (("repo/docker-compose.yml").data) (pyStrip cy5 ++ ("\n").data)]
      else composeFallback
    | none => composeFallback
  firstEvs ++ composeEvs ++ [PEvent.wroteFile (("repo/Makefile").data) MAKEFILE_TEMPLATE]

/-! ## `process_deploy_request` (worker.py lines 495-591) -/

/-- A pipeline run ends completed, or failed with the raised cause. -/
inductive POutcome where
  | completed : POutcome
  | failed : List Char → POutcome
deriving DecidableEq

/-- The gate's denial message (worker.py line 507). -/
def DENIED_MSG : List Char :=
  ("Denied: repository does not appear to expose an HTTP-accessible server.").data

/-- Embedding of `(job_id.split("-")[0] or job_id)[:8]` (worker.py line 553). -/
def jobShortId (jobId : List Char) : List Char :=
  let headPart := jobId.takeWhile (fun c => !(c == '-'))
  (if headPart.isEmpty then jobId else headPart).take 8

/-- Embedding of `process_deploy_request` (worker.py lines 495-591) as
the sequence of its observable effects plus the outcome: clone, tree
listing, the HTTP gate, port inference, containerization assets, the
repo rewrite pass, archiving, the Terraform candidate (generated when
extracted and policy-accepted, otherwise the fallback render — which
raises `KeyError`), normalization, artifact writes, and the
provisioning tool (plan or apply by configuration).  Provisioning-tool
success is assumed (its own failures are external). -/
def process_deploy_request (jobId : List Char) (snap : Snapshot) (oracle : Oracle)
    (dryRun : Bool) : List PEvent × POutcome :=
  let evs0 := [PEvent.cloned, PEvent.treeListed]
  if !(is_http_service snap.files) then
    (evs0, POutcome.failed DENIED_MSG)
  else
    let port := infer_app_port snap
    let docEvs := ensure_docker_assets snap.files port oracle
    let evs1 := evs0 ++ docEvs ++ [PEvent.rewroteRepo, PEvent.archived]
    let generated : Option (List Char) :=
      match oracle.terraform with
      | some resp =>
        let code := extract_code_block resp
        if !code.isEmpty && is_llm_tf_acceptable code then some code else none
      | none => none
    let chosen : Option (List Char) :=
      match generated with
      | some tf => some tf
      | none =>
        (terraform_fallback_main_tf (jobShortId jobId)).map
          (replaceAllLit dockerSubLit (dockerSubIns ++ dockerSubLit))
    match chosen with
    | some tf =>
      (evs1 ++ [PEvent.wroteFile (("terraform/main.tf").data) (normalize_tf tf),
                PEvent.copiedArchive, PEvent.tfInit]
            ++ (if dryRun then [PEvent.tfPlan] else [PEvent.tfApply]),
       POutcome.completed)
    | none => (evs1, POutcome.failed (("KeyError: remote_exec_snippet").data))

/-- C3: when the gate fails, the pipeline stops with the denial error
right after cloning and listing the tree — no containerization or
infrastructure artifact is written and the provisioning tool is never
invoked, so the job transitions to failed with nothing provisioned. -/
theorem C3_gate_denies_before_artifacts (jobId : List Char) (snap : Snapshot)
    (oracle : Oracle) (dryRun : Bool) (h : is_http_service snap.files = false) :
    process_deploy_request jobId snap oracle dryRun
      = ([PEvent.cloned, PEvent.treeListed], POutcome.failed DENIED_MSG)
    ∧ ∀ e ∈ (process_deploy_request jobId snap oracle dryRun).1,
        isArtifactWrite e = false ∧ isProvisionStep e = false := by
  have h1 : process_deploy_request jobId snap oracle dryRun
      = ([PEvent.cloned, PEvent.treeListed], POutcome.failed DENIED_MSG) := by
    unfold process_deploy_request
    rw [h]
    rfl
  refine ⟨h1, ?_⟩
  intro e he
  rw [h1] at he
  simp only [List.mem_cons, List.not_mem_nil, or_false] at he
  rcases he with rfl | rfl <;> exact ⟨rfl, rfl⟩

/-- A snapshot that fails the gate: one Python file with no HTTP
signature. -/
def c3Snap : Snapshot :=
  ⟨("/data/autodeploy/j1/repo").data, [⟨[], ("main.py").data, ("print(40 + 2)").data⟩]⟩

/-- Witness for C3 at a concrete non-HTTP snapshot. -/
theorem C3_gate_denies_before_artifacts_witness :
    process_deploy_request (("job-1").data) c3Snap ⟨none, none, none, none⟩ true
      = ([PEvent.cloned, PEvent.treeListed], POutcome.failed DENIED_MSG) :=
  (C3_gate_denies_before_artifacts _ _ _ _ (by decide)).1

/-! ## JobManager (app/queue.py) and the submission system (app/main.py)

The job registry is the `JobManager._jobs` map guarded by its lock: an
association list in insertion order.  Log lines are timestamp-formatted
by the logging handler, so their text is abstracted; the transition
system below tracks the fields the claims are about (statuses and the
executor's occupancy). -/

/-- Embedding of `JobStatus` (queue.py lines 7-11). -/
inductive JStatus where
  | queued : JStatus
  | running : JStatus
  | completed : JStatus
  | failed : JStatus
deriving DecidableEq

/-- One job record (queue.py lines 31-40). -/
structure Job where
  status : JStatus
  workdir : List Char
  logs : List (List Char)
  result : Option (List Char)
  error : Option (List Char)
deriving DecidableEq

/-- Lookup in the registry (Python `self._jobs.get(job_id)`;
`create_job` is only called with fresh uuid4 ids, so keys are
distinct). -/
def lookupJob : List (List Char × Job) → List Char → Option Job
  | [], _ => none
  | (k, j) :: rest, id => if k = id then some j else lookupJob rest id

/-- Embedding of `JobManager._set_status` (queue.py lines 56-59): update
the job's status only when the id is present. -/
def set_status (jobs : List (List Char × Job)) (id : List Char) (st : JStatus) :
    List (List Char × Job) :=
  if (lookupJob jobs id).isSome then
    jobs.map (fun kv => if kv.1 = id then (kv.1, { kv.2 with status := st }) else kv)
  else jobs

/-- Embedding of `JobManager._append_log` (queue.py lines 61-64). -/
def append_log (jobs : List (List Char × Job)) (id : List Char) (msg : List Char) :
    List (List Char × Job) :=
  if (lookupJob jobs id).isSome then
    jobs.map (fun kv => if kv.1 = id then (kv.1, { kv.2 with logs := kv.2.logs ++ [msg] }) else kv)
  else jobs

/-- C10: on an id absent from the registry, `_set_status` and
`_append_log` are silent no-ops — no error is raised (both embeddings
are total) and the registry, with every job's status, logs, result and
error, is returned unchanged. -/
theorem C10_absent_job_noop (jobs : List (List Char × Job)) (id : List Char)
    (st : JStatus) (msg : List Char) (h : lookupJob jobs id = none) :
    set_status jobs id st = jobs ∧ append_log jobs id msg = jobs := by
  unfold set_status append_log
  rw [h]
  exact ⟨rfl, rfl⟩

/-- Witness for C10 at a concrete registry and an absent id. -/
theorem C10_absent_job_noop_witness :
    set_status [((("a").data), ⟨JStatus.queued, ("w").data, [], none, none⟩)]
        (("b").data) JStatus.failed
      = [((("a").data), ⟨JStatus.queued, ("w").data, [], none, none⟩)]
    ∧ append_log [((("a").data), ⟨JStatus.queued, ("w").data, [], none, none⟩)]
        (("b").data) (("boom").data)
      = [((("a").data), ⟨JStatus.queued, ("w").data, [], none, none⟩)] :=
  C10_absent_job_noop _ _ _ _ (by decide)

/-- Lookup distributes over registry concatenation. -/
theorem lookupJob_append (l1 l2 : List (List Char × Job)) (id : List Char) :
    lookupJob (l1 ++ l2) id
      = match lookupJob l1 id with
        | some j => some j
        | none => lookupJob l2 id := by
  induction l1 with
  | nil => simp [lookupJob]
  | cons kv rest ih =>
    obtain ⟨k, j⟩ := kv
    simp only [List.cons_append, lookupJob]
    split_ifs with h
    · rfl
    · exact ih

/-- The status-update map changes exactly the looked-up id's status. -/
theorem lookupJob_map_set (jobs : List (List Char × Job)) (id : List Char)
    (st : JStatus) (id' : List Char) :
    lookupJob (jobs.map (fun kv =>
        if kv.1 = id then (kv.1, { kv.2 with status := st }) else kv)) id'
      = if id' = id then (lookupJob jobs id').map (fun j => { j with status := st })
        else lookupJob jobs id' := by
  induction jobs with
  | nil => split_ifs <;> simp [lookupJob]
  | cons kv rest ih =>
    obtain ⟨k, j⟩ := kv
    simp only [List.map_cons]
    by_cases hk : k = id
    · subst hk
      simp only [if_pos rfl]
      by_cases hid : id' = k
      · subst hid
        simp [lookupJob]
      · have hki : ¬ (k = id') := fun hh => hid hh.symm
        simp only [lookupJob, if_neg hki, if_neg hid] at ih ⊢
        exact ih
    · simp only [if_neg hk]
      by_cases hid : id' = id
      · subst hid
        have hki : ¬ (k = id') := fun hh => hk hh
        simp only [lookupJob, if_neg hki, if_pos rfl] at ih ⊢
        exact ih
      · simp only [lookupJob, if_neg hid] at ih ⊢
        by_cases hk2 : k = id'
        · simp [if_pos hk2]
        · simp only [if_neg hk2]
          exact ih

/-- Lemma: `_set_status` changes exactly the given id's status (and nothing at
all when that id is absent, in which case both sides agree as well). -/
theorem lookupJob_set_status (jobs : List (List Char × Job)) (id : List Char)
    (st : JStatus) (id' : List Char) :
    lookupJob (set_status jobs id st) id'
      = if id' = id then (lookupJob jobs id').map (fun j => { j with status := st })
        else lookupJob jobs id' := by
  unfold set_status
  split_ifs with hp hid hid
  · rw [lookupJob_map_set, if_pos hid]
  · rw [lookupJob_map_set, if_neg hid]
  · subst hid
    rw [Option.not_isSome_iff_eq_none.mp hp]
    rfl
  · rfl

/-- The whole submission system's state: the pool size
(`max_workers`, main.py line 21 / queue.py line 25), the job registry,
the ids handed to the executor (`submit`), the ids whose wrapper is
currently executing on a worker thread, and the ids whose wrapper has
returned. -/
structure SysState where
  maxWorkers : Nat
  jobs : List (List Char × Job)
  submitted : List (List Char)
  started : List (List Char)
  finished : List (List Char)
deriving DecidableEq

/-- A job's status as seen through `JobManager.get_job`. -/
def statusOf (s : SysState) (id : List Char) : Option JStatus :=
  (lookupJob s.jobs id).map Job.status

/-- The freshly created job record (queue.py lines 31-40). -/
def newJob (wd : List Char) : Job := ⟨JStatus.queued, wd, [], none, none⟩

/-- The system right after startup: an empty registry and an idle
pool. -/
def initState (n : Nat) : SysState := ⟨n, [], [], [], []⟩

/-- System events.  `create` and `submit` are the API handler's calls
(main.py lines 39-50: a fresh uuid per request, one `create_job`
followed by one `submit`); `start` is the executor beginning a queued
wrapper when a worker is free (`ThreadPoolExecutor(max_workers=n)`);
`finish` is the wrapper returning, recording success or failure
(queue.py lines 84-92). -/
inductive SysEvent where
  | create : List Char → List Char → SysEvent
  | submit : List Char → SysEvent
  | start : List Char → SysEvent
  | finish : List Char → Bool → SysEvent

/-- One step of the system.  Guards encode the callers' discipline and
the executor's contract: ids are fresh at creation, each id is
submitted once while still queued (main.py submits immediately after
creating a fresh uuid), a wrapper starts only once, after submission,
while fewer than `maxWorkers` wrappers run, and finishes only while
running.  Note that `submit` sets the status to running at submission
time (queue.py line 80), before any worker picks the job up. -/
def step (s : SysState) (e : SysEvent) : Option SysState :=
  match e with
  | .create id wd =>
    if (lookupJob s.jobs id).isSome then none
    else some { s with jobs := s.jobs ++ [(id, newJob wd)] }
  | .submit id =>
    if statusOf s id = some JStatus.queued ∧ id ∉ s.submitted then
      some { s with jobs := set_status s.jobs id JStatus.running,
                    submitted := s.submitted ++ [id] }
    else none
  | .start id =>
    if id ∈ s.submitted ∧ id ∉ s.started ∧ id ∉ s.finished
        ∧ s.started.length < s.maxWorkers then
      some { s with started := id :: s.started }
    else none
  | .finish id ok =>
    if id ∈ s.started then
      some { s with
        jobs := set_status s.jobs id
          (if ok then JStatus.completed else JStatus.failed),
        started := s.started.erase id,
        finished := id :: s.finished }
    else none

/-- Run a list of events from a state. -/
def runTrace : SysState → List SysEvent → Option SysState
  | s, [] => some s
  | s, e :: tr =>
    match step s e with
    | some s' => runTrace s' tr
    | none => none

/-- A state the system can reach from startup with pool size `N`. -/
def Reachable (N : Nat) (s : SysState) : Prop :=
  ∃ tr, runTrace (initState N) tr = some s

/-- The number of jobs whose registry status is `running`. -/
def runningCount (s : SysState) : Nat :=
  (s.jobs.filter (fun kv => decide (kv.2.status = JStatus.running))).length

/-- The trace submitting two jobs to a pool of size one, back to back,
as two API requests do. -/
def c4Trace : List SysEvent :=
  [.create (("a").data) (("wa").data), .submit (("a").data),
   .create (("b").data) (("wb").data), .submit (("b").data)]

/-- The state reached by `c4Trace`: both jobs hold status `running`
while no worker has picked either up. -/
def c4State : SysState :=
  ⟨1,
   [((("a").data), ⟨JStatus.running, ("wa").data, [], none, none⟩),
    ((("b").data), ⟨JStatus.running, ("wb").data, [], none, none⟩)],
   [("a").data, ("b").data], [], []⟩

/-- C4 counterexample: with pool size 1, a reachable state holds two
jobs with status `running` simultaneously, because `JobManager.submit`
sets the status to running at submission time (queue.py line 80), not
when a worker slot frees. -/
theorem C4_counterexample :
    runTrace (initState 1) c4Trace = some c4State
    ∧ c4State.maxWorkers = 1
    ∧ runningCount c4State = 2 := by
  refine ⟨by decide, rfl, by decide⟩

/-- One step keeps the pool size and preserves the executor bound. -/
theorem step_bound (s s' : SysState) (e : SysEvent) (hs : step s e = some s') :
    s'.maxWorkers = s.maxWorkers
    ∧ (s.started.length ≤ s.maxWorkers → s'.started.length ≤ s'.maxWorkers) := by
  cases e with
  | create id wd =>
    simp only [step] at hs
    split_ifs at hs
    simp only [Option.some.injEq] at hs
    subst hs
    exact ⟨rfl, fun h => h⟩
  | submit id =>
    simp only [step] at hs
    split_ifs at hs
    simp only [Option.some.injEq] at hs
    subst hs
    exact ⟨rfl, fun h => h⟩
  | start id =>
    simp only [step] at hs
    split_ifs at hs with hg
    simp only [Option.some.injEq] at hs
    subst hs
    refine ⟨rfl, fun _ => ?_⟩
    have := hg.2.2.2
    simpa using this
  | finish id ok =>
    simp only [step] at hs
    split_ifs at hs <;>
      (simp only [Option.some.injEq] at hs
       subst hs
       refine ⟨rfl, fun h => ?_⟩
       have hle : (s.started.erase id).length ≤ s.started.length :=
         (List.erase_sublist id s.started).length_le
       simpa using le_trans hle h)

/-- The executor bound along a whole trace. -/
theorem runTrace_bound (tr : List SysEvent) :
    ∀ s s', runTrace s tr = some s' →
      s.started.length ≤ s.maxWorkers →
      s'.started.length ≤ s'.maxWorkers ∧ s'.maxWorkers = s.maxWorkers := by
  induction tr with
  | nil =>
    intro s s' h hb
    simp only [runTrace, Option.some.injEq] at h
    subst h
    exact ⟨hb, rfl⟩
  | cons e tr ih =>
    intro s s' h hb
    unfold runTrace at h
    cases hstep : step s e with
    | none => rw [hstep] at h; exact Option.noConfusion h
    | some s1 =>
      rw [hstep] at h
      obtain ⟨hw, hbnd⟩ := step_bound s s1 e hstep
      obtain ⟨b1, w1⟩ := ih s1 s' h (hbnd hb)
      exact ⟨b1, by rw [w1, hw]⟩

/-- C4 amended: the executor's concurrency bound does hold — in every
reachable state at most `N` job wrappers execute simultaneously on the
pool of size `N` — but the *status* field does not witness it: status
`running` is assigned at submission time, so more than `N` jobs can
hold status `running` at once, the excess ones
merely queued inside the executor. -/
theorem C4_amended_pool_bound (N : Nat) (s : SysState) (h : Reachable N s) :
    s.started.length ≤ N := by
  obtain ⟨tr, htr⟩ := h
  obtain ⟨hb, hw⟩ := runTrace_bound tr (initState N) s htr (by simp [initState])
  rw [hw] at hb
  exact hb

/-- Witness for C4's amended statement at the concrete reachable state
of the counterexample. -/
theorem C4_amended_pool_bound_witness : c4State.started.length ≤ 1 :=
  C4_amended_pool_bound 1 c4State ⟨c4Trace, by decide⟩

/-- Lemma: `_set_status` does not change which ids are present. -/
theorem isSome_set_status (jobs : List (List Char × Job)) (id : List Char)
    (st : JStatus) (id' : List Char) :
    (lookupJob (set_status jobs id st) id').isSome = (lookupJob jobs id').isSome := by
  rw [lookupJob_set_status]
  split_ifs with h
  · cases lookupJob jobs id' <;> rfl
  · rfl

/-- The status view of `_set_status`. -/
theorem statusOf_set_status (jobs : List (List Char × Job)) (id : List Char)
    (st : JStatus) (id' : List Char) :
    (lookupJob (set_status jobs id st) id').map Job.status
      = if id' = id then ((lookupJob jobs id').map Job.status).map (fun _ => st)
        else (lookupJob jobs id').map Job.status := by
  rw [lookupJob_set_status]
  split_ifs with h
  · cases lookupJob jobs id' <;> rfl
  · rfl

/-- The invariant tying the executor's bookkeeping to the registry's
statuses: submitted-but-unfinished jobs are `running`, finished jobs are
terminal, executing jobs are submitted and unfinished, finished jobs
were submitted, submitted ids exist in the registry, and no id executes
twice at once. -/
def Inv (s : SysState) : Prop :=
  (∀ id, id ∈ s.submitted → id ∉ s.finished → statusOf s id = some JStatus.running)
  ∧ (∀ id, id ∈ s.finished →
      statusOf s id = some JStatus.completed ∨ statusOf s id = some JStatus.failed)
  ∧ (∀ id, id ∈ s.started → id ∈ s.submitted ∧ id ∉ s.finished)
  ∧ (∀ id, id ∈ s.finished → id ∈ s.submitted)
  ∧ (∀ id, id ∈ s.submitted → (lookupJob s.jobs id).isSome = true)
  ∧ s.started.Nodup

/-- The startup state satisfies the invariant. -/
theorem inv_init (n : Nat) : Inv (initState n) := by
  refine ⟨?_, ?_, ?_, ?_, ?_, ?_⟩ <;> simp [initState]

/-- Every step preserves the invariant. -/
theorem inv_step (s s' : SysState) (e : SysEvent) (hInv : Inv s)
    (hs : step s e = some s') : Inv s' := by
  obtain ⟨h1, h2, h3, h4, h5, h6⟩ := hInv
  cases e with
  | create id wd =>
    simp only [step] at hs
    split_ifs at hs with hp
    simp only [Option.some.injEq] at hs
    subst hs
    have hkeep : ∀ id', (lookupJob s.jobs id').isSome = true →
        lookupJob (s.jobs ++ [(id, newJob wd)]) id' = lookupJob s.jobs id' := by
      intro id' hsome
      rw [lookupJob_append]
      cases hx : lookupJob s.jobs id' with
      | some j => rfl
      | none => rw [hx] at hsome; exact Bool.noConfusion hsome
    refine ⟨?_, ?_, h3, h4, ?_, h6⟩
    · intro id' hsub hnf
      have := h1 id' hsub hnf
      simp only [statusOf] at this ⊢
      rw [hkeep id' (h5 id' hsub)]
      exact this
    · intro id' hfin
      have := h2 id' hfin
      simp only [statusOf] at this ⊢
      rw [hkeep id' (h5 id' (h4 id' hfin))]
      exact this
    · intro id' hsub
      rw [hkeep id' (h5 id' hsub)]
      exact h5 id' hsub
  | submit id =>
    simp only [step] at hs
    split_ifs at hs with hg
    obtain ⟨hq, hns⟩ := hg
    simp only [Option.some.injEq] at hs
    subst hs
    refine ⟨?_, ?_, ?_, ?_, ?_, h6⟩
    · intro id' hsub hnf
      simp only [List.mem_append, List.mem_singleton] at hsub
      simp only [statusOf, statusOf_set_status]
      rcases hsub with hold | rfl
      · by_cases hid : id' = id
        · subst hid
          rw [if_pos rfl]
          simp only [statusOf] at hq
          rw [hq]
          rfl
        · rw [if_neg hid]
          exact h1 id' hold hnf
      · rw [if_pos rfl]
        simp only [statusOf] at hq
        rw [hq]
        rfl
    · intro id' hfin
      have hterm := h2 id' hfin
      have hne : id' ≠ id := by
        intro hh
        subst hh
        simp only [statusOf] at hq hterm
        rw [hq] at hterm
        rcases hterm with hx | hx <;> simp at hx
      simp only [statusOf, statusOf_set_status, if_neg hne]
      exact hterm
    · intro id' hst
      obtain ⟨ha, hb⟩ := h3 id' hst
      exact ⟨List.mem_append_left _ ha, hb⟩
    · intro id' hfin
      exact List.mem_append_left _ (h4 id' hfin)
    · intro id' hsub
      simp only [List.mem_append, List.mem_singleton] at hsub
      rw [isSome_set_status]
      rcases hsub with hold | rfl
      · exact h5 id' hold
      · simp only [statusOf] at hq
        cases hx : lookupJob s.jobs id' with
        | some j => rfl
        | none => rw [hx] at hq; exact Option.noConfusion hq
  | start id =>
    simp only [step] at hs
    split_ifs at hs with hg
    obtain ⟨hsub, hnst, hnf, _⟩ := hg
    simp only [Option.some.injEq] at hs
    subst hs
    refine ⟨h1, h2, ?_, h4, h5, ?_⟩
    · intro id' hst
      rcases List.mem_cons.mp hst with rfl | hold
      · exact ⟨hsub, hnf⟩
      · exact h3 id' hold
    · exact List.nodup_cons.mpr ⟨hnst, h6⟩
  | finish id ok =>
    simp only [step] at hs
    split_ifs at hs with hst hok <;>
    · simp only [Option.some.injEq] at hs
      subst hs
      obtain ⟨hidSub, hidNF⟩ := h3 id hst
      have hidRun := h1 id hidSub hidNF
      refine ⟨?_, ?_, ?_, ?_, ?_, h6.erase id⟩
      · intro id' hsub hnf
        simp only [List.mem_cons, not_or] at hnf
        obtain ⟨hne, hnf'⟩ := hnf
        simp only [statusOf, statusOf_set_status, if_neg hne]
        exact h1 id' hsub hnf'
      · intro id' hfin
        rcases List.mem_cons.mp hfin with rfl | hold
        · simp only [statusOf, statusOf_set_status, if_pos rfl]
          simp only [statusOf] at hidRun
          rw [hidRun]
          first
            | exact Or.inl rfl
            | exact Or.inr rfl
        · have hne : id' ≠ id := by
            intro hh
            subst hh
            exact hidNF hold
          simp only [statusOf, statusOf_set_status, if_neg hne]
          exact h2 id' hold
      · intro id' hst'
        have hmem := (List.Nodup.mem_erase_iff h6).mp hst'
        obtain ⟨hne, hold⟩ := hmem
        obtain ⟨ha, hb⟩ := h3 id' hold
        refine ⟨ha, ?_⟩
        simp only [List.mem_cons, not_or]
        exact ⟨hne, hb⟩
      · intro id' hfin
        rcases List.mem_cons.mp hfin with rfl | hold
        · exact hidSub
        · exact h4 id' hold
      · intro id' hsub
        rw [isSome_set_status]
        exact h5 id' hsub

/-- The invariant holds along every trace. -/
theorem inv_runTrace (tr : List SysEvent) :
    ∀ s s', Inv s → runTrace s tr = some s' → Inv s' := by
  induction tr with
  | nil =>
    intro s s' hInv h
    simp only [runTrace, Option.some.injEq] at h
    subst h
    exact hInv
  | cons e tr ih =>
    intro s s' hInv h
    unfold runTrace at h
    cases hstep : step s e with
    | none => rw [hstep] at h; exact Option.noConfusion h
    | some s1 =>
      rw [hstep] at h
      exact ih s1 s' (inv_step s s1 e hInv hstep) h

/-- Every reachable state satisfies the invariant. -/
theorem inv_reachable (N : Nat) (s : SysState) (h : Reachable N s) : Inv s := by
  obtain ⟨tr, htr⟩ := h
  exact inv_runTrace tr (initState N) s (inv_init N) htr

/-- The allowed one-step evolutions of a job's observed status: stay
put, appear as `queued`, go `queued` to `running`, go `running` to a
terminal status; a terminal status never changes. -/
def statusStepOk : Option JStatus → Option JStatus → Bool
  | none, none => true
  | none, some JStatus.queued => true
  | some JStatus.queued, some JStatus.queued => true
  | some JStatus.queued, some JStatus.running => true
  | some JStatus.running, some JStatus.running => true
  | some JStatus.running, some JStatus.completed => true
  | some JStatus.running, some JStatus.failed => true
  | some JStatus.completed, some JStatus.completed => true
  | some JStatus.failed, some JStatus.failed => true
  | _, _ => false

/-- An unchanged status is always allowed. -/
theorem statusStepOk_refl (x : Option JStatus) : statusStepOk x x = true := by
  cases x with
  | none => rfl
  | some st => cases st <;> rfl

/-- C5: from any reachable state, every step moves every job's observed
status only along `queued → running → completed | failed`: a job never
becomes terminal without being `running` first, and a terminal status
never changes again. -/
theorem C5_status_transitions (N : Nat) (s s' : SysState) (e : SysEvent)
    (hr : Reachable N s) (hs : step s e = some s') (id : List Char) :
    statusStepOk (statusOf s id) (statusOf s' id) = true := by
  obtain ⟨h1, _, h3, _, h5, _⟩ := inv_reachable N s hr
  cases e with
  | create cid wd =>
    simp only [step] at hs
    split_ifs at hs with hp
    simp only [Option.some.injEq] at hs
    subst hs
    simp only [statusOf, lookupJob_append]
    by_cases hid : id = cid
    · subst hid
      rw [Option.not_isSome_iff_eq_none.mp hp]
      simp [lookupJob, newJob, statusStepOk]
    · cases hx : lookupJob s.jobs id with
      | some j =>
        simp only [statusOf, hx]
        exact statusStepOk_refl _
      | none =>
        have hki : ¬ (cid = id) := fun hh => hid hh.symm
        simp only [statusOf, hx, lookupJob, if_neg hki]
        rfl
  | submit sid =>
    simp only [step] at hs
    split_ifs at hs with hg
    obtain ⟨hq, _⟩ := hg
    simp only [Option.some.injEq] at hs
    subst hs
    simp only [statusOf, statusOf_set_status]
    by_cases hid : id = sid
    · subst hid
      rw [if_pos rfl]
      simp only [statusOf] at hq
      rw [hq]
      rfl
    · rw [if_neg hid]
      exact statusStepOk_refl _
  | start sid =>
    simp only [step] at hs
    split_ifs at hs
    simp only [Option.some.injEq] at hs
    subst hs
    exact statusStepOk_refl _
  | finish fid ok =>
    simp only [step] at hs
    split_ifs at hs with hst hok <;>
    · simp only [Option.some.injEq] at hs
      subst hs
      obtain ⟨hfSub, hfNF⟩ := h3 fid hst
      have hfRun := h1 fid hfSub hfNF
      simp only [statusOf, statusOf_set_status]
      by_cases hid : id = fid
      · subst hid
        rw [if_pos rfl]
        simp only [statusOf] at hfRun
        rw [hfRun]
        rfl
      · rw [if_neg hid]
        exact statusStepOk_refl _

/-- The state after the API handler creates one job. -/
def c5CreatedState : SysState :=
  ⟨2, [((("a").data), ⟨JStatus.queued, ("w").data, [], none, none⟩)], [], [], []⟩

/-- The state after that job is submitted (status set to running at
submission). -/
def c5SubmittedState : SysState :=
  ⟨2, [((("a").data), ⟨JStatus.running, ("w").data, [], none, none⟩)],
   [("a").data], [], []⟩

/-- Witness for C5 at a concrete reachable state and step: submitting
the queued job moves its status from `queued` to `running`. -/
theorem C5_status_transitions_witness :
    statusStepOk (statusOf c5CreatedState (("a").data))
      (statusOf c5SubmittedState (("a").data)) = true :=
  C5_status_transitions 2 c5CreatedState c5SubmittedState
    (SysEvent.submit (("a").data))
    ⟨[SysEvent.create (("a").data) (("w").data)], by decide⟩
    (by decide) (("a").data)

end RepoAutodeployer
